import Mathlib

/-!
Verification development for the libksba-os2 core parsers.

The C sources `src/keyinfo.c`, `src/cms-parser.c` and `src/cert.c` are
embedded shallowly: byte buffers become `List Nat` (each element a byte
value), pointer/length pairs become an index into the list (the remaining
length is `der.length - i`), streams become a `Reader` record, and fallible
functions return `Except Err _`.  The target platform (OS/2) is ILP32, so
the C types `unsigned long`, `size_t` and `unsigned int` are 32-bit; the
places where the C arithmetic can wrap are computed modulo `2 ^ 32`.

Collaborator code that is part of the library but not present under `src/`
(`ber-help.c`, the OID-to-string converter from `oid.c`, the ASN.1 node
navigator and the time converter) is modelled from the specification; each
such definition carries a doc comment starting `Modelled from the spec:`.
Allocation failures (`GPG_ERR_ENOMEM`, `KSBA_Out_Of_Core` on `malloc`
returning NULL) are outside the model: the embedding assumes allocation
succeeds, as the spec's functional descriptions do.
-/

namespace Ksba

/-- Error codes used by the embedded functions.  `badBer` is
`GPG_ERR_BAD_BER`, `berError` is the old-style `KSBA_BER_Error` used by
`cms-parser.c`, `falseErr` is `GPG_ERR_FALSE`, `eof` is the code the
buffer TL parser reports at a premature end of input.  `assertFailed`
models a failing C `assert`, and `loopLimit` models non-termination of a
C loop (both are proved unreachable where they matter). -/
inductive Err where
  | invKeyinfo
  | unexpectedTag
  | notDerEncoded
  | badBer
  | invObj
  | falseErr
  | eof
  | unknownAlgorithm
  | unsupportedAlgorithm
  | readError
  | berError
  | invalidCmsObject
  | noCmsObject
  | objectTooShort
  | objectTooLarge
  | unsupportedCmsVersion
  | unsupportedEncoding
  | unsupportedCmsObject
  | invalidValue
  | noData
  | noValue
  | conflict
  | assertFailed
  | loopLimit
deriving DecidableEq, Repr

/-- Modulus of the 32-bit `unsigned long` / `size_t` arithmetic of the
target platform. -/
def W : Nat := 4294967296

/-- Wrapping subtraction on `unsigned long`: the value of `a - b` in C when
`a < 2^32`. -/
def wsub (a b : Nat) : Nat := (a + (W - b % W)) % W

/-- Bytes of the sub-list of `l` starting at offset `off` with length
`len` (the C idiom `(buf + off, len)`). -/
def sliceL (l : List Nat) (off len : Nat) : List Nat := (l.drop off).take len

/-- Value denoted by the content octets of a BER INTEGER (base-256,
big-endian, as the C accumulation loops read it). -/
def intValue (bs : List Nat) : Nat := bs.foldl (fun a b => a * 256 + b % 256) 0

/-- True exactly on an `Except.ok` result. -/
def isOk {ε α : Type} : Except ε α → Bool
  | .ok _ => true
  | .error _ => false

instance {ε α : Type} [DecidableEq ε] [DecidableEq α] :
    DecidableEq (Except ε α) := fun a b =>
  match a, b with
  | .ok x, .ok y =>
    if h : x = y then isTrue (by rw [h]) else isFalse (by simp [h])
  | .error x, .error y =>
    if h : x = y then isTrue (by rw [h]) else isFalse (by simp [h])
  | .ok _, .error _ => isFalse (by simp)
  | .error _, .ok _ => isFalse (by simp)

/-! ## keyinfo.c: the TLV_LENGTH macro (lines 331-357) -/

/-- Long-form length accumulation of the `TLV_LENGTH` macro: read `count`
octets, big-endian, into a 32-bit `unsigned long`; a missing octet is
`GPG_ERR_BAD_BER`.  Returns the accumulated length and the index after the
length octets. -/
def tlvLenLoop (der : List Nat) (i : Nat) (count : Nat) (len : Nat) :
    Except Err (Nat × Nat) :=
  match count with
  | 0 => .ok (len, i)
  | count' + 1 =>
    match der.get? i with
    | none => .error .badBer
    | some c => tlvLenLoop der (i + 1) count' ((len * 256 + c % 256) % W)

/-- The `TLV_LENGTH` macro of keyinfo.c: parse one length field starting at
index `i`; `0x80` is `GPG_ERR_NOT_DER_ENCODED`, `0xff` is
`GPG_ERR_BAD_BER`, and a length exceeding the remaining buffer is
`GPG_ERR_INV_KEYINFO`.  Returns the length and the index after it. -/
def tlvLength (der : List Nat) (i : Nat) : Except Err (Nat × Nat) :=
  match der.get? i with
  | none => .error .invKeyinfo
  | some c =>
    if c = 0x80 then .error .notDerEncoded
    else if c = 0xff then .error .badBer
    else if c < 0x80 then
      if c > der.length - (i + 1) then .error .invKeyinfo else .ok (c, i + 1)
    else
      match tlvLenLoop der (i + 1) (c % 128) 0 with
      | .error e => .error e
      | .ok (len, i') =>
        if len > der.length - i' then .error .invKeyinfo else .ok (len, i')

/-! ## keyinfo.c: get_algorithm (lines 407-540) -/

/-- Result record of `get_algorithm`: the out-parameters `*r_nread`,
`*r_pos`, `*r_len`, `*r_bitstr`, `*r_parm_pos`, `*r_parm_len`,
`*r_parm_type`. -/
structure AlgoInfo where
  nread : Nat
  pos : Nat
  len : Nat
  isBitstr : Bool
  parmPos : Nat
  parmLen : Nat
  parmType : Nat
deriving DecidableEq, Repr

/-- ASN.1 type constants from asn1-func.h used as `*r_parm_type`. -/
def TYPE_OCTET_STRING : Nat := 4

/-- ASN.1 OBJECT IDENTIFIER type constant. -/
def TYPE_OBJECT_ID : Nat := 6

/-- ASN.1 SEQUENCE type constant. -/
def TYPE_SEQUENCE : Nat := 16

/-- Parameter-parsing step of `get_algorithm` (keyinfo.c lines 449-517):
called with the index just after the OID value and the remaining wrapped
sequence length.  `wantParm` is true when the caller passed non-NULL
`r_parm_pos`/`r_parm_len`.  Returns
`(index after the parameter, remaining seqlen, parm_pos, parm_len,
parm_type)`. -/
def getAlgParm (wantParm : Bool) (der : List Nat) (i seqlen : Nat) :
    Except Err (Nat × Nat × Nat × Nat × Nat) :=
  if seqlen = 0 then .ok (i, seqlen, 0, 0, 0)
  else
    match der.get? i with
    | none => .error .invKeyinfo
    | some c =>
      if c = 0x05 then
        match der.get? (i + 1) with
        | none => .error .invKeyinfo
        | some c2 =>
          if c2 ≠ 0 then .error .badBer
          else .ok (i + 2, wsub seqlen 2, 0, 0, 0)
      else if wantParm ∧ c = 0x04 then
        match tlvLength der (i + 1) with
        | .error e => .error e
        | .ok (len, i') =>
          .ok (i' + len, wsub (wsub seqlen (i' - i)) len, i', len,
               TYPE_OCTET_STRING)
      else if wantParm ∧ c = 0x06 then
        match tlvLength der (i + 1) with
        | .error e => .error e
        | .ok (len, i') =>
          .ok (i' + len, wsub (wsub seqlen (i' - i)) len, i', len,
               TYPE_OBJECT_ID)
      else if wantParm ∧ c = 0x30 then
        match tlvLength der (i + 1) with
        | .error e => .error e
        | .ok (len, i') =>
          .ok (i' + len, wsub (wsub seqlen (i' - i)) len, i,
               len + (i' - i), TYPE_SEQUENCE)
      else
        match tlvLength der (i + 1) with
        | .error e => .error e
        | .ok (len, i') =>
          .ok (i' + len, wsub (wsub seqlen (i' - i)) len, 0, 0, 0)

/-- The function `get_algorithm` of keyinfo.c: parse an
`AlgorithmIdentifier` `SEQUENCE { OID, parameter? }` at the start of
`der`; in `mode ≠ 0` additionally parse the header of the following BIT
STRING or OCTET STRING.  `wantParm` mirrors passing non-NULL parameter
out-pointers. -/
def getAlgorithm (mode : Nat) (wantParm : Bool) (der : List Nat) :
    Except Err AlgoInfo :=
  match der.get? 0 with
  | none => .error .invKeyinfo
  | some c =>
    if c ≠ 0x30 then .error .unexpectedTag
    else
      match tlvLength der 1 with
      | .error e => .error e
      | .ok (seqlen0, j) =>
        match der.get? j with
        | none => .error .invKeyinfo
        | some c1 =>
          if c1 ≠ 0x06 then .error .unexpectedTag
          else
            match tlvLength der (j + 1) with
            | .error e => .error e
            | .ok (oidLen, k) =>
              match getAlgParm wantParm der (k + oidLen)
                  (wsub seqlen0 (k + oidLen - j)) with
              | .error e => .error e
              | .ok (i2, s2, pPos, pLen, pType) =>
                if s2 ≠ 0 then .error .invKeyinfo
                else if mode = 0 then
                  .ok ⟨i2, k, oidLen, false, pPos, pLen, pType⟩
                else
                  match der.get? i2 with
                  | none => .error .invKeyinfo
                  | some cb =>
                    if cb = 0x03 then
                      match tlvLength der (i2 + 1) with
                      | .error e => .error e
                      | .ok (_, i3) =>
                        .ok ⟨i3, k, oidLen, true, pPos, pLen, pType⟩
                    else if cb = 0x04 then
                      match tlvLength der (i2 + 1) with
                      | .error e => .error e
                      | .ok (_, i3) =>
                        .ok ⟨i3, k, oidLen, false, pPos, pLen, pType⟩
                    else .error .unexpectedTag

/-! ## OID printing -/

/-- Base-128 groups of a DER-encoded OID value: continuation octets have
the high bit set; an unterminated trailing group is dropped, as in the C
loop. -/
def oidGroups : List Nat → Nat → List Nat
  | [], _ => []
  | b :: rest, acc =>
    let v := acc * 128 + b % 128
    if b % 256 ≥ 128 then oidGroups rest v
    else v :: oidGroups rest 0

/-- Modelled from the spec: `ksba_oid_to_str` (the general OID-to-dotted-
string converter of `oid.c`, which is not under `src/`).  Per §3 the OID is
an ordered sequence of non-negative integers carried as DER bytes with the
first two arcs combined; the conversion to dotted decimal is the standard
one: split the first base-128 group `v` into `0.v`, `1.(v-40)` or
`2.(v-80)`. -/
def oidToStr (bytes : List Nat) : String :=
  match oidGroups bytes 0 with
  | [] => ""
  | v :: rest =>
    let f := if v < 40 then (0, v) else if v < 80 then (1, v - 40)
             else (2, v - 80)
    String.intercalate "." ((f.1 :: f.2 :: rest).map toString)

/-! ## keyinfo.c: _ksba_parse_algorithm_identifier2 (lines 553-626) -/

/-- Result of `_ksba_parse_algorithm_identifier2`: `*r_nread`, `*r_oid`
and the optional copied parameter `(*r_parm, *r_parmlen)`. -/
structure AlgoIdent where
  nread : Nat
  oid : String
  parm : Option (List Nat)
deriving DecidableEq, Repr

/-- The function `_ksba_parse_algorithm_identifier2` of keyinfo.c,
including the ecdsaWithSpecified special case: when the parameter is a
SEQUENCE and the OID prints as `1.2.840.10045.4.3`, the parameter is
re-parsed as an `AlgorithmIdentifier`, the inner OID replaces the outer
one, and no parameter is returned. -/
def parseAlgorithmIdentifier2 (der : List Nat) : Except Err AlgoIdent :=
  match getAlgorithm 0 true der with
  | .error e => .error e
  | .ok r =>
    let oid := oidToStr (sliceL der r.pos r.len)
    if r.parmPos ≠ 0 ∧ r.parmLen ≠ 0 ∧ r.parmType = TYPE_SEQUENCE ∧
        oid = "1.2.840.10045.4.3" then
      match getAlgorithm 0 false (sliceL der r.parmPos r.parmLen) with
      | .error e => .error e
      | .ok r2 =>
        .ok ⟨r.nread, oidToStr (sliceL der (r.parmPos + r2.pos) r2.len),
             none⟩
    else
      .ok ⟨r.nread, oid,
           if r.parmPos ≠ 0 ∧ r.parmLen ≠ 0 then
             some (sliceL der r.parmPos r.parmLen)
           else none⟩

/-- The function `_ksba_parse_algorithm_identifier` (keyinfo.c lines
543-549): the variant without parameter output; the parameter
out-pointers passed to `get_algorithm` are still the non-NULL locals. -/
def parseAlgorithmIdentifier (der : List Nat) : Except Err (Nat × String) :=
  match parseAlgorithmIdentifier2 der with
  | .error e => .error e
  | .ok r => .ok (r.nread, r.oid)

end Ksba

namespace Ksba

/-! ## Arithmetic and bounds lemmas -/

theorem wsub_lt (a b : Nat) : wsub a b < W :=
  Nat.mod_lt _ (by norm_num [W])

theorem wsub_wsub (a b c : Nat) : wsub (wsub a b) c = wsub a (b + c) := by
  unfold wsub W
  omega

theorem wsub_eq_zero (a b : Nat) (ha : a < W) (hb : b < W)
    (h : wsub a b = 0) : a = b := by
  unfold wsub W at *
  omega

theorem wsub_zero (a : Nat) (ha : a < W) : wsub a 0 = a := by
  unfold wsub W at *
  omega

theorem tlvLenLoop_ok {der : List Nat} :
    ∀ {count i len0 len i'}, tlvLenLoop der i count len0 = .ok (len, i') →
    i' = i + count ∧ (count = 0 → len = len0) ∧
    (count ≠ 0 → len < W ∧ i' ≤ der.length) := by
  intro count
  induction count with
  | zero =>
    intro i len0 len i' h
    simp only [tlvLenLoop, Except.ok.injEq, Prod.mk.injEq] at h
    exact ⟨by omega, fun _ => h.1.symm, fun hc => absurd rfl hc⟩
  | succ n ih =>
    intro i len0 len i' h
    unfold tlvLenLoop at h
    cases hg : der.get? i with
    | none => rw [hg] at h; exact absurd h (by simp)
    | some c =>
      rw [hg] at h
      obtain ⟨hlt, -⟩ := List.get?_eq_some.mp hg
      obtain ⟨h1, h2, h3⟩ := ih h
      refine ⟨by omega, fun hc => absurd hc (by omega), fun _ => ?_⟩
      cases Nat.eq_zero_or_pos n with
      | inl hz =>
        subst hz
        refine ⟨?_, by omega⟩
        rw [h2 rfl]
        exact Nat.mod_lt _ (by norm_num [W])
      | inr hp => exact h3 (by omega)

theorem tlvLength_ok {der : List Nat} {i len i' : Nat}
    (h : tlvLength der i = .ok (len, i')) :
    i < i' ∧ i' ≤ der.length ∧ i' + len ≤ der.length ∧ len < W := by
  unfold tlvLength at h
  cases hg : der.get? i with
  | none => rw [hg] at h; exact absurd h (by simp)
  | some c =>
    rw [hg] at h
    dsimp only at h
    obtain ⟨hlt, -⟩ := List.get?_eq_some.mp hg
    by_cases h80 : c = 0x80
    · simp [h80] at h
    · rw [if_neg h80] at h
      by_cases hff : c = 0xff
      · simp [hff] at h
      · rw [if_neg hff] at h
        by_cases hshort : c < 0x80
        · rw [if_pos hshort] at h
          split at h
          · exact absurd h (by simp)
          · rename_i hle
            simp only [Except.ok.injEq, Prod.mk.injEq] at h
            obtain ⟨h1, h2⟩ := h
            have hw : c < W := lt_trans hshort (by norm_num [W])
            omega
        · rw [if_neg hshort] at h
          cases hloop : tlvLenLoop der (i + 1) (c % 128) 0 with
          | error e => rw [hloop] at h; exact absurd h (by simp)
          | ok p =>
            obtain ⟨llen, li⟩ := p
            rw [hloop] at h
            dsimp only at h
            obtain ⟨h1, h2, h3⟩ := tlvLenLoop_ok hloop
            split at h
            · exact absurd h (by simp)
            · rename_i hle
              simp only [Except.ok.injEq, Prod.mk.injEq] at h
              obtain ⟨hA, hB⟩ := h
              by_cases hcz : c % 128 = 0
              · rw [hcz] at h1
                have hl0 : llen = 0 := h2 hcz
                have hw : (0 : Nat) < W := by norm_num [W]
                omega
              · obtain ⟨hW, hB2⟩ := h3 hcz
                omega

theorem getAlgParm_ok {w : Bool} {der : List Nat} {i s i2 s2 pP pL pT : Nat}
    (hs : s < W) (hi : i ≤ der.length)
    (h : getAlgParm w der i s = .ok (i2, s2, pP, pL, pT)) :
    i ≤ i2 ∧ i2 ≤ der.length ∧ s2 = wsub s (i2 - i) := by
  unfold getAlgParm at h
  by_cases hz : s = 0
  · rw [if_pos hz] at h
    simp only [Except.ok.injEq, Prod.mk.injEq] at h
    obtain ⟨e1, e2, -⟩ := h
    refine ⟨by omega, by omega, ?_⟩
    have : i2 - i = 0 := by omega
    rw [this, ← e2, wsub_zero s hs]
  · rw [if_neg hz] at h
    cases hg : der.get? i with
    | none => rw [hg] at h; exact absurd h (by simp)
    | some c =>
      rw [hg] at h
      dsimp only at h
      obtain ⟨hlt, -⟩ := List.get?_eq_some.mp hg
      by_cases h05 : c = 0x05
      · rw [if_pos h05] at h
        cases hg2 : der.get? (i + 1) with
        | none => rw [hg2] at h; exact absurd h (by simp)
        | some c2 =>
          rw [hg2] at h
          dsimp only at h
          obtain ⟨hlt2, -⟩ := List.get?_eq_some.mp hg2
          split at h
          · exact absurd h (by simp)
          · simp only [Except.ok.injEq, Prod.mk.injEq] at h
            obtain ⟨e1, e2, -⟩ := h
            refine ⟨by omega, by omega, ?_⟩
            have : i2 - i = 2 := by omega
            rw [this, ← e2]
      · rw [if_neg h05] at h
        have step : ∀ {len i' : Nat}, tlvLength der (i + 1) = .ok (len, i') →
            i2 = i' + len → s2 = wsub (wsub s (i' - i)) len →
            i ≤ i2 ∧ i2 ≤ der.length ∧ s2 = wsub s (i2 - i) := by
          intro len i' hTL e1 e2
          obtain ⟨b1, b2, b3, b4⟩ := tlvLength_ok hTL
          refine ⟨by omega, by omega, ?_⟩
          rw [e2, wsub_wsub]
          have : i' - i + len = i2 - i := by omega
          rw [this]
        split at h
        · cases hTL : tlvLength der (i + 1) with
          | error e => rw [hTL] at h; exact absurd h (by simp)
          | ok p =>
            obtain ⟨len, i'⟩ := p
            rw [hTL] at h
            dsimp only at h
            simp only [Except.ok.injEq, Prod.mk.injEq] at h
            obtain ⟨e1, e2, -⟩ := h
            exact step hTL e1.symm e2.symm
        · split at h
          · cases hTL : tlvLength der (i + 1) with
            | error e => rw [hTL] at h; exact absurd h (by simp)
            | ok p =>
              obtain ⟨len, i'⟩ := p
              rw [hTL] at h
              dsimp only at h
              simp only [Except.ok.injEq, Prod.mk.injEq] at h
              obtain ⟨e1, e2, -⟩ := h
              exact step hTL e1.symm e2.symm
          · split at h
            · cases hTL : tlvLength der (i + 1) with
              | error e => rw [hTL] at h; exact absurd h (by simp)
              | ok p =>
                obtain ⟨len, i'⟩ := p
                rw [hTL] at h
                dsimp only at h
                simp only [Except.ok.injEq, Prod.mk.injEq] at h
                obtain ⟨e1, e2, -⟩ := h
                exact step hTL e1.symm e2.symm
            · cases hTL : tlvLength der (i + 1) with
              | error e => rw [hTL] at h; exact absurd h (by simp)
              | ok p =>
                obtain ⟨len, i'⟩ := p
                rw [hTL] at h
                dsimp only at h
                simp only [Except.ok.injEq, Prod.mk.injEq] at h
                obtain ⟨e1, e2, -⟩ := h
                exact step hTL e1.symm e2.symm

theorem getAlgParm_seq {w : Bool} {der : List Nat} {i s i2 s2 pP pL pT : Nat}
    (h : getAlgParm w der i s = .ok (i2, s2, pP, pL, pT))
    (hT : pT = TYPE_SEQUENCE) : pP = i ∧ 2 ≤ pL := by
  unfold getAlgParm at h
  by_cases hz : s = 0
  · rw [if_pos hz] at h
    simp only [Except.ok.injEq, Prod.mk.injEq] at h
    obtain ⟨-, -, -, -, e5⟩ := h
    rw [← e5] at hT
    exact absurd hT (by norm_num [TYPE_SEQUENCE])
  · rw [if_neg hz] at h
    cases hg : der.get? i with
    | none => rw [hg] at h; exact absurd h (by simp)
    | some c =>
      rw [hg] at h
      dsimp only at h
      by_cases h05 : c = 0x05
      · rw [if_pos h05] at h
        cases hg2 : der.get? (i + 1) with
        | none => rw [hg2] at h; exact absurd h (by simp)
        | some c2 =>
          rw [hg2] at h
          dsimp only at h
          split at h
          · exact absurd h (by simp)
          · simp only [Except.ok.injEq, Prod.mk.injEq] at h
            obtain ⟨-, -, -, -, e5⟩ := h
            rw [← e5] at hT
            exact absurd hT (by norm_num [TYPE_SEQUENCE])
      · rw [if_neg h05] at h
        split at h
        · cases hTL : tlvLength der (i + 1) with
          | error e => rw [hTL] at h; exact absurd h (by simp)
          | ok p =>
            obtain ⟨len, i'⟩ := p
            rw [hTL] at h
            dsimp only at h
            simp only [Except.ok.injEq, Prod.mk.injEq] at h
            obtain ⟨-, -, -, -, e5⟩ := h
            rw [← e5] at hT
            exact absurd hT (by norm_num [TYPE_OCTET_STRING, TYPE_SEQUENCE])
        · split at h
          · cases hTL : tlvLength der (i + 1) with
            | error e => rw [hTL] at h; exact absurd h (by simp)
            | ok p =>
              obtain ⟨len, i'⟩ := p
              rw [hTL] at h
              dsimp only at h
              simp only [Except.ok.injEq, Prod.mk.injEq] at h
              obtain ⟨-, -, -, -, e5⟩ := h
              rw [← e5] at hT
              exact absurd hT (by norm_num [TYPE_OBJECT_ID, TYPE_SEQUENCE])
          · split at h
            · cases hTL : tlvLength der (i + 1) with
              | error e => rw [hTL] at h; exact absurd h (by simp)
              | ok p =>
                obtain ⟨len, i'⟩ := p
                rw [hTL] at h
                dsimp only at h
                simp only [Except.ok.injEq, Prod.mk.injEq] at h
                obtain ⟨-, e2⟩ := h
                obtain ⟨-, e3, e4, -⟩ := e2
                obtain ⟨b1, -, -, -⟩ := tlvLength_ok hTL
                exact ⟨e3.symm, by omega⟩
            · cases hTL : tlvLength der (i + 1) with
              | error e => rw [hTL] at h; exact absurd h (by simp)
              | ok p =>
                obtain ⟨len, i'⟩ := p
                rw [hTL] at h
                dsimp only at h
                simp only [Except.ok.injEq, Prod.mk.injEq] at h
                obtain ⟨-, -, -, -, e5⟩ := h
                rw [← e5] at hT
                exact absurd hT (by norm_num [TYPE_SEQUENCE])

end Ksba

namespace Ksba

/-- Elimination principle for a successful `getAlgorithm` run, exposing the
intermediate parse steps of the C function. -/
theorem getAlgorithm_elim {m : Nat} {w : Bool} {der : List Nat}
    {r : AlgoInfo} (h : getAlgorithm m w der = .ok r) :
    ∃ L j c1 oidLen k i2 s2,
      der.get? 0 = some 0x30 ∧
      tlvLength der 1 = .ok (L, j) ∧
      der.get? j = some c1 ∧ c1 = 0x06 ∧
      tlvLength der (j + 1) = .ok (oidLen, k) ∧
      getAlgParm w der (k + oidLen) (wsub L (k + oidLen - j)) =
        .ok (i2, s2, r.parmPos, r.parmLen, r.parmType) ∧
      s2 = 0 ∧ r.pos = k ∧ r.len = oidLen ∧
      (m = 0 → r.nread = i2 ∧ r.isBitstr = false) ∧
      (m ≠ 0 → i2 + 1 < r.nread ∧ r.nread ≤ der.length) := by
  unfold getAlgorithm at h
  cases hg : der.get? 0 with
  | none => rw [hg] at h; exact absurd h (by simp)
  | some c =>
    rw [hg] at h
    dsimp only at h
    by_cases hc : c = 0x30
    · subst hc
      rw [if_neg (by simp)] at h
      cases hTL : tlvLength der 1 with
      | error e => rw [hTL] at h; exact absurd h (by simp)
      | ok p =>
        obtain ⟨L, j⟩ := p
        rw [hTL] at h
        dsimp only at h
        cases hg1 : der.get? j with
        | none => rw [hg1] at h; exact absurd h (by simp)
        | some c1 =>
          rw [hg1] at h
          dsimp only at h
          by_cases hc1 : c1 = 0x06
          · subst hc1
            rw [if_neg (by simp)] at h
            cases hTL2 : tlvLength der (j + 1) with
            | error e => rw [hTL2] at h; exact absurd h (by simp)
            | ok p2 =>
              obtain ⟨oidLen, k⟩ := p2
              rw [hTL2] at h
              dsimp only at h
              cases hP : getAlgParm w der (k + oidLen)
                  (wsub L (k + oidLen - j)) with
              | error e => rw [hP] at h; exact absurd h (by simp)
              | ok q =>
                obtain ⟨i2, s2, pP, pL, pT⟩ := q
                rw [hP] at h
                dsimp only at h
                by_cases hs2 : s2 = 0
                · rw [if_neg (by omega : ¬s2 ≠ 0)] at h
                  by_cases hm : m = 0
                  · rw [if_pos hm] at h
                    simp only [Except.ok.injEq] at h
                    refine ⟨L, j, 0x06, oidLen, k, i2, s2,
                      rfl, rfl, hg1, rfl, hTL2, ?_, hs2, ?_, ?_, ?_, ?_⟩
                    · rw [← h]; exact hP
                    · rw [← h]
                    · rw [← h]
                    · intro _; rw [← h]; exact ⟨rfl, rfl⟩
                    · intro hm'; exact absurd hm hm'
                  · rw [if_neg hm] at h
                    cases hg2 : der.get? i2 with
                    | none => rw [hg2] at h; exact absurd h (by simp)
                    | some cb =>
                      rw [hg2] at h
                      dsimp only at h
                      by_cases hcb3 : cb = 0x03
                      · rw [if_pos hcb3] at h
                        cases hTL3 : tlvLength der (i2 + 1) with
                        | error e => rw [hTL3] at h; exact absurd h (by simp)
                        | ok p3 =>
                          obtain ⟨bl, i3⟩ := p3
                          rw [hTL3] at h
                          dsimp only at h
                          simp only [Except.ok.injEq] at h
                          obtain ⟨t1, t2, t3, -⟩ := tlvLength_ok hTL3
                          refine ⟨L, j, 0x06, oidLen, k, i2, s2,
                            rfl, rfl, hg1, rfl, hTL2, ?_, hs2, ?_, ?_,
                            fun hm' => absurd hm' (by simpa using hm),
                            fun _ => ?_⟩
                          · rw [← h]; exact hP
                          · rw [← h]
                          · rw [← h]
                          · rw [← h]; dsimp only
                            exact ⟨by omega, by omega⟩
                      · rw [if_neg hcb3] at h
                        by_cases hcb4 : cb = 0x04
                        · rw [if_pos hcb4] at h
                          cases hTL3 : tlvLength der (i2 + 1) with
                          | error e =>
                            rw [hTL3] at h; exact absurd h (by simp)
                          | ok p3 =>
                            obtain ⟨bl, i3⟩ := p3
                            rw [hTL3] at h
                            dsimp only at h
                            simp only [Except.ok.injEq] at h
                            obtain ⟨t1, t2, t3, -⟩ := tlvLength_ok hTL3
                            refine ⟨L, j, 0x06, oidLen, k, i2, s2,
                              rfl, rfl, hg1, rfl, hTL2, ?_, hs2, ?_, ?_,
                              fun hm' => absurd hm' (by simpa using hm),
                              fun _ => ?_⟩
                            · rw [← h]; exact hP
                            · rw [← h]
                            · rw [← h]
                            · rw [← h]; dsimp only
                              exact ⟨by omega, by omega⟩
                        · rw [if_neg hcb4] at h
                          exact absurd h (by simp)
                · rw [if_pos hs2] at h
                  exact absurd h (by simp)
          · rw [if_pos hc1] at h
            exact absurd h (by simp)

    · rw [if_pos hc] at h
      exact absurd h (by simp)

end Ksba

namespace Ksba

/-- On success of `get_algorithm` in mode 0, the reported `nread` is the
header length plus the value length of the outer SEQUENCE, and it never
exceeds the buffer. -/
theorem getAlgorithm_consumes {w : Bool} {der : List Nat} {r : AlgoInfo}
    {L j : Nat} (hW : der.length < W)
    (h : getAlgorithm 0 w der = .ok r)
    (hTL : tlvLength der 1 = .ok (L, j)) :
    r.nread = j + L ∧ r.nread ≤ der.length := by
  obtain ⟨L', j', c1, oidLen, k, i2, s2, hg, hTL', hg1, hc1, hTL2, hP,
    hs2, hpos, hlen, hm0, -⟩ := getAlgorithm_elim h
  rw [hTL] at hTL'
  simp only [Except.ok.injEq, Prod.mk.injEq] at hTL'
  obtain ⟨eL, ej⟩ := hTL'
  subst eL; subst ej
  obtain ⟨b1, b2, b3, b4⟩ := tlvLength_ok hTL
  obtain ⟨c1', c2', c3', c4'⟩ := tlvLength_ok hTL2
  obtain ⟨p1, p2, p3⟩ :=
    getAlgParm_ok (wsub_lt _ _) (by omega) hP
  rw [wsub_wsub] at p3
  have he : k + oidLen - j + (i2 - (k + oidLen)) = i2 - j := by omega
  rw [he] at p3
  rw [hs2] at p3
  have : L = i2 - j := wsub_eq_zero _ _ b4 (by omega) p3.symm
  obtain ⟨hn, -⟩ := hm0 rfl
  exact ⟨by omega, by omega⟩

/-- A successful `get_algorithm` consumes at least one byte and at most
the whole buffer. -/
theorem getAlgorithm_nread_bounds {m : Nat} {w : Bool} {der : List Nat}
    {r : AlgoInfo} (h : getAlgorithm m w der = .ok r) :
    1 ≤ r.nread ∧ r.nread ≤ der.length := by
  obtain ⟨L, j, c1, oidLen, k, i2, s2, hg, hTL, hg1, hc1, hTL2, hP,
    hs2, hpos, hlen, hm0, hm1⟩ := getAlgorithm_elim h
  obtain ⟨b1, b2, b3, b4⟩ := tlvLength_ok hTL
  obtain ⟨c1', c2', c3', c4'⟩ := tlvLength_ok hTL2
  obtain ⟨p1, p2, p3⟩ :=
    getAlgParm_ok (wsub_lt _ _) (by omega) hP
  by_cases hm : m = 0
  · obtain ⟨hn, -⟩ := hm0 hm
    exact ⟨by omega, by omega⟩
  · obtain ⟨hn1, hn2⟩ := hm1 hm
    exact ⟨by omega, by omega⟩

/-- On success, a SEQUENCE-typed parameter of `get_algorithm` has a
nonzero recorded offset and length. -/
theorem getAlgorithm_seq_parm {m : Nat} {w : Bool} {der : List Nat}
    {r : AlgoInfo} (h : getAlgorithm m w der = .ok r)
    (hT : r.parmType = TYPE_SEQUENCE) :
    0 < r.parmPos ∧ 0 < r.parmLen := by
  obtain ⟨L, j, c1, oidLen, k, i2, s2, hg, hTL, hg1, hc1, hTL2, hP,
    hs2, hpos, hlen, hm0, hm1⟩ := getAlgorithm_elim h
  obtain ⟨b1, b2, b3, b4⟩ := tlvLength_ok hTL
  obtain ⟨c1', c2', c3', c4'⟩ := tlvLength_ok hTL2
  obtain ⟨e1, e2⟩ := getAlgParm_seq hP hT
  exact ⟨by omega, by omega⟩

/-- A successful `_ksba_parse_algorithm_identifier2` reports the `nread`
of the underlying `get_algorithm` run. -/
theorem parseAlgorithmIdentifier2_nread {der : List Nat} {a : AlgoIdent}
    (h : parseAlgorithmIdentifier2 der = .ok a) :
    ∃ r : AlgoInfo, getAlgorithm 0 true der = .ok r ∧ a.nread = r.nread := by
  unfold parseAlgorithmIdentifier2 at h
  cases hg : getAlgorithm 0 true der with
  | error e => rw [hg] at h; exact absurd h (by simp)
  | ok r =>
    rw [hg] at h
    dsimp only at h
    refine ⟨r, rfl, ?_⟩
    split at h
    · cases hrec : getAlgorithm 0 false (sliceL der r.parmPos r.parmLen) with
      | error e => rw [hrec] at h; exact absurd h (by simp)
      | ok r2 =>
        rw [hrec] at h
        dsimp only at h
        simp only [Except.ok.injEq] at h
        rw [← h]
    · simp only [Except.ok.injEq] at h
      rw [← h]

end Ksba

namespace Ksba

/-- DER encoding of `AlgorithmIdentifier { ecdsa-with-specified
(1.2.840.10045.4.3), SEQUENCE { OID 2.16.840.1.101.3.4.2.1 } }`. -/
def derEcdsaSpecified : List Nat :=
  [0x30, 0x16, 0x06, 0x07, 0x2a, 0x86, 0x48, 0xce, 0x3d, 0x04, 0x03,
   0x30, 0x0b, 0x06, 0x09, 0x60, 0x86, 0x48, 0x01, 0x65, 0x03, 0x04,
   0x02, 0x01]

/-- C1: for every DER AlgorithmIdentifier whose OID is 1.2.840.10045.4.3
and whose parameter is a SEQUENCE, `_ksba_parse_algorithm_identifier2`
returns the OID obtained by recursively parsing the parameter as an
AlgorithmIdentifier and returns no parameter; in particular the input
with parameter `SEQUENCE { OID 2.16.840.1.101.3.4.2.1 }` yields the
dotted string "2.16.840.1.101.3.4.2.1" and an absent parameter. -/
theorem C1_ecdsa_with_specified :
    (∀ (der : List Nat) (r r2 : AlgoInfo),
      getAlgorithm 0 true der = .ok r →
      r.parmType = TYPE_SEQUENCE →
      oidToStr (sliceL der r.pos r.len) = "1.2.840.10045.4.3" →
      getAlgorithm 0 false (sliceL der r.parmPos r.parmLen) = .ok r2 →
      parseAlgorithmIdentifier2 der =
        .ok ⟨r.nread, oidToStr (sliceL der (r.parmPos + r2.pos) r2.len),
             none⟩) ∧
    parseAlgorithmIdentifier2 derEcdsaSpecified =
      .ok ⟨24, "2.16.840.1.101.3.4.2.1", none⟩ := by
  constructor
  · intro der r r2 h hT hOid hrec
    obtain ⟨hpos, hlen⟩ := getAlgorithm_seq_parm h hT
    unfold parseAlgorithmIdentifier2
    rw [h]
    dsimp only
    rw [if_pos ⟨by omega, by omega, hT, hOid⟩, hrec]
  · decide

/-- Witness for C1: the general statement applied to the concrete
ecdsa-with-specified encoding. -/
theorem C1_ecdsa_with_specified_witness :
    parseAlgorithmIdentifier2 derEcdsaSpecified =
      .ok ⟨(⟨24, 4, 7, false, 11, 13, 16⟩ : AlgoInfo).nread,
           oidToStr (sliceL derEcdsaSpecified
             ((⟨24, 4, 7, false, 11, 13, 16⟩ : AlgoInfo).parmPos +
              (⟨13, 4, 9, false, 0, 0, 0⟩ : AlgoInfo).pos)
             (⟨13, 4, 9, false, 0, 0, 0⟩ : AlgoInfo).len), none⟩ :=
  C1_ecdsa_with_specified.1 derEcdsaSpecified
    ⟨24, 4, 7, false, 11, 13, 16⟩ ⟨13, 4, 9, false, 0, 0, 0⟩
    (by decide) (by decide) (by decide) (by decide)

/-- A small `AlgorithmIdentifier { OID 1.3.101.112 }` used as a witness
input. -/
def derEd25519Algo : List Nat := [0x30, 0x05, 0x06, 0x03, 0x2b, 0x65, 0x70]

/-- An `AlgorithmIdentifier` whose outer SEQUENCE announces one byte more
than the OID and the NULL parameter occupy, leaving `seqlen = 1`. -/
def derSlackAlgo : List Nat :=
  [0x30, 0x08, 0x06, 0x03, 0x2b, 0x65, 0x70, 0x05, 0x00, 0xaa]

/-- C5: for every DER AlgorithmIdentifier accepted by
`get_algorithm`/`_ksba_parse_algorithm_identifier` (mode 0), the reported
`nread` equals the full tag+length+value length of the outer SEQUENCE
(and never exceeds the buffer), and if after the OID and the optional
parameter the remaining sequence length is nonzero the function fails
with `GPG_ERR_INV_KEYINFO`. -/
theorem C5_get_algorithm_consumes_exactly :
    (∀ (w : Bool) (der : List Nat) (r : AlgoInfo) (L j : Nat),
      der.length < W → getAlgorithm 0 w der = .ok r →
      tlvLength der 1 = .ok (L, j) →
      r.nread = j + L ∧ r.nread ≤ der.length) ∧
    (∀ (der : List Nat) (a : AlgoIdent) (L j : Nat),
      der.length < W → parseAlgorithmIdentifier2 der = .ok a →
      tlvLength der 1 = .ok (L, j) → a.nread = j + L) ∧
    (∀ (w : Bool) (der : List Nat) (i2 s2 pP pL pT L j oidLen k : Nat),
      der.get? 0 = some 0x30 → tlvLength der 1 = .ok (L, j) →
      der.get? j = some 0x06 → tlvLength der (j + 1) = .ok (oidLen, k) →
      getAlgParm w der (k + oidLen) (wsub L (k + oidLen - j)) =
        .ok (i2, s2, pP, pL, pT) →
      s2 ≠ 0 → getAlgorithm 0 w der = .error .invKeyinfo) := by
  refine ⟨fun w der r L j hW h hTL => getAlgorithm_consumes hW h hTL,
    ?_, ?_⟩
  · intro der a L j hW h hTL
    obtain ⟨r, hr, hn⟩ := parseAlgorithmIdentifier2_nread h
    rw [hn]
    exact (getAlgorithm_consumes hW hr hTL).1
  · intro w der i2 s2 pP pL pT L j oidLen k hg hTL hg1 hTL2 hP hs2
    unfold getAlgorithm
    rw [hg]
    dsimp only
    rw [if_neg (by simp), hTL]
    dsimp only
    rw [hg1]
    dsimp only
    rw [if_neg (by simp), hTL2]
    dsimp only
    rw [hP]
    dsimp only
    rw [if_pos hs2]

/-- Witness for C5: both directions at concrete inputs: a well-formed
Ed25519 `AlgorithmIdentifier` whose `nread` is the full TLV length, and a
slack SEQUENCE whose leftover length makes the parse fail. -/
theorem C5_get_algorithm_consumes_exactly_witness :
    ((⟨7, 4, 3, false, 0, 0, 0⟩ : AlgoInfo).nread = 2 + 5 ∧
     (⟨7, 4, 3, false, 0, 0, 0⟩ : AlgoInfo).nread ≤ derEd25519Algo.length) ∧
    getAlgorithm 0 true derSlackAlgo = .error .invKeyinfo :=
  ⟨C5_get_algorithm_consumes_exactly.1 true derEd25519Algo
      ⟨7, 4, 3, false, 0, 0, 0⟩ 5 2 (by decide) (by decide) (by decide),
   C5_get_algorithm_consumes_exactly.2.2 true derSlackAlgo 9 1 0 0 0 8 2 3 4
      (by decide) (by decide) (by decide) (by decide) (by decide)
      (by decide)⟩

end Ksba

namespace Ksba

/-! ## keyinfo.c: algorithm tables (lines 64-273) -/

/-- PKALGO_RSA from the pkalgo_t enum. -/
def PKALGO_RSA : Nat := 0

/-- PKALGO_DSA from the pkalgo_t enum. -/
def PKALGO_DSA : Nat := 1

/-- PKALGO_ECC from the pkalgo_t enum. -/
def PKALGO_ECC : Nat := 2

/-- PKALGO_X25519 from the pkalgo_t enum. -/
def PKALGO_X25519 : Nat := 3

/-- PKALGO_X448 from the pkalgo_t enum. -/
def PKALGO_X448 : Nat := 4

/-- PKALGO_ED25519 from the pkalgo_t enum. -/
def PKALGO_ED25519 : Nat := 5

/-- PKALGO_ED448 from the pkalgo_t enum. -/
def PKALGO_ED448 : Nat := 6

/-- The special `supported` value marking rsaPSS entries. -/
def SUPPORTED_RSAPSS : Nat := 2

/-- One row of `struct algo_table_s`: elem/ctrl strings are the parallel
parameter-name and expected-tag strings. -/
structure AlgoEntry where
  oidString : String
  oid : List Nat
  supported : Nat
  pkalgo : Nat
  algoString : String
  elemString : String
  ctrlString : List Nat
  parmElemString : Option String := none
  parmCtrlString : Option (List Nat) := none
  digestString : Option String := none
deriving DecidableEq, Repr

/-- The `pk_algo_table` of keyinfo.c. -/
def pkAlgoTable : List AlgoEntry := [
  { oidString := "1.2.840.113549.1.1.1",
    oid := [0x2a, 0x86, 0x48, 0x86, 0xf7, 0x0d, 0x01, 0x01, 0x01],
    supported := 1, pkalgo := PKALGO_RSA, algoString := "rsa",
    elemString := "-ne", ctrlString := [0x30, 0x02, 0x02] },
  { oidString := "1.2.840.113549.1.1.7",
    oid := [0x2a, 0x86, 0x48, 0x86, 0xf7, 0x0d, 0x01, 0x01, 0x07],
    supported := 0, pkalgo := PKALGO_RSA, algoString := "rsa",
    elemString := "-ne", ctrlString := [0x30, 0x02, 0x02] },
  { oidString := "1.2.840.113549.1.1.10",
    oid := [0x2a, 0x86, 0x48, 0x86, 0xf7, 0x0d, 0x01, 0x01, 0x0a],
    supported := SUPPORTED_RSAPSS, pkalgo := PKALGO_RSA,
    algoString := "rsa", elemString := "-ne",
    ctrlString := [0x30, 0x02, 0x02] },
  { oidString := "2.5.8.1.1", oid := [0x55, 0x08, 0x01, 0x01],
    supported := 1, pkalgo := PKALGO_RSA, algoString := "ambiguous-rsa",
    elemString := "-ne", ctrlString := [0x30, 0x02, 0x02] },
  { oidString := "1.2.840.10040.4.1",
    oid := [0x2a, 0x86, 0x48, 0xce, 0x38, 0x04, 0x01],
    supported := 1, pkalgo := PKALGO_DSA, algoString := "dsa",
    elemString := "y", ctrlString := [0x02],
    parmElemString := some "-pqg",
    parmCtrlString := some [0x30, 0x02, 0x02, 0x02] },
  { oidString := "1.2.840.10045.2.1",
    oid := [0x2a, 0x86, 0x48, 0xce, 0x3d, 0x02, 0x01],
    supported := 1, pkalgo := PKALGO_ECC, algoString := "ecc",
    elemString := "q", ctrlString := [0x80] },
  { oidString := "1.3.101.110", oid := [0x2b, 0x65, 0x6e],
    supported := 1, pkalgo := PKALGO_X25519, algoString := "ecc",
    elemString := "q", ctrlString := [0x80] },
  { oidString := "1.3.101.111", oid := [0x2b, 0x65, 0x6f],
    supported := 1, pkalgo := PKALGO_X448, algoString := "ecc",
    elemString := "q", ctrlString := [0x80] },
  { oidString := "1.3.101.112", oid := [0x2b, 0x65, 0x70],
    supported := 1, pkalgo := PKALGO_ED25519, algoString := "ecc",
    elemString := "q", ctrlString := [0x80] },
  { oidString := "1.3.101.113", oid := [0x2b, 0x65, 0x71],
    supported := 1, pkalgo := PKALGO_ED448, algoString := "ecc",
    elemString := "q", ctrlString := [0x80] }]

/-- The `sig_algo_table` of keyinfo.c (including the duplicated
`1.2.840.10040.4.3` rows exactly as in the source). -/
def sigAlgoTable : List AlgoEntry := [
  { oidString := "1.2.840.113549.1.1.5",
    oid := [0x2a, 0x86, 0x48, 0x86, 0xf7, 0x0d, 0x01, 0x01, 0x05],
    supported := 1, pkalgo := PKALGO_RSA, algoString := "rsa",
    elemString := "s", ctrlString := [0x82],
    digestString := some "sha1" },
  { oidString := "1.2.840.113549.1.1.4",
    oid := [0x2a, 0x86, 0x48, 0x86, 0xf7, 0x0d, 0x01, 0x01, 0x04],
    supported := 1, pkalgo := PKALGO_RSA, algoString := "rsa",
    elemString := "s", ctrlString := [0x82],
    digestString := some "md5" },
  { oidString := "1.2.840.113549.1.1.2",
    oid := [0x2a, 0x86, 0x48, 0x86, 0xf7, 0x0d, 0x01, 0x01, 0x02],
    supported := 0, pkalgo := PKALGO_RSA, algoString := "rsa",
    elemString := "s", ctrlString := [0x82],
    digestString := some "md2" },
  { oidString := "1.2.840.10040.4.3",
    oid := [0x2a, 0x86, 0x48, 0xce, 0x38, 0x04, 0x01],
    supported := 1, pkalgo := PKALGO_DSA, algoString := "dsa",
    elemString := "-rs", ctrlString := [0x30, 0x02, 0x02] },
  { oidString := "1.2.840.10040.4.3",
    oid := [0x2a, 0x86, 0x48, 0xce, 0x38, 0x04, 0x03],
    supported := 1, pkalgo := PKALGO_DSA, algoString := "dsa",
    elemString := "-rs", ctrlString := [0x30, 0x02, 0x02],
    digestString := some "sha1" },
  { oidString := "1.3.36.8.5.1.2.2",
    oid := [0x2b, 0x24, 0x08, 0x05, 0x01, 0x02, 0x02],
    supported := 1, pkalgo := PKALGO_DSA, algoString := "dsa",
    elemString := "-rs", ctrlString := [0x30, 0x02, 0x02],
    digestString := some "rmd160" },
  { oidString := "2.16.840.1.101.3.4.3.1",
    oid := [0x06, 0x09, 0x60, 0x86, 0x48, 0x01, 0x65, 0x03, 0x04, 0x03,
            0x01],
    supported := 1, pkalgo := PKALGO_DSA, algoString := "dsa",
    elemString := "-rs", ctrlString := [0x30, 0x02, 0x02],
    digestString := some "sha224" },
  { oidString := "2.16.840.1.101.3.4.3.2",
    oid := [0x06, 0x09, 0x60, 0x86, 0x48, 0x01, 0x65, 0x03, 0x04, 0x03,
            0x01],
    supported := 1, pkalgo := PKALGO_DSA, algoString := "dsa",
    elemString := "-rs", ctrlString := [0x30, 0x02, 0x02],
    digestString := some "sha256" },
  { oidString := "1.2.840.10045.4.1",
    oid := [0x2a, 0x86, 0x48, 0xce, 0x3d, 0x04, 0x01],
    supported := 1, pkalgo := PKALGO_ECC, algoString := "ecdsa",
    elemString := "-rs", ctrlString := [0x30, 0x02, 0x02],
    digestString := some "sha1" },
  { oidString := "1.2.840.10045.4.3",
    oid := [0x2a, 0x86, 0x48, 0xce, 0x3d, 0x04, 0x03],
    supported := 1, pkalgo := PKALGO_ECC, algoString := "ecdsa",
    elemString := "-rs", ctrlString := [0x30, 0x02, 0x02] },
  { oidString := "1.2.840.10045.4.3.1",
    oid := [0x2a, 0x86, 0x48, 0xce, 0x3d, 0x04, 0x03, 0x01],
    supported := 1, pkalgo := PKALGO_ECC, algoString := "ecdsa",
    elemString := "-rs", ctrlString := [0x30, 0x02, 0x02],
    digestString := some "sha224" },
  { oidString := "1.2.840.10045.4.3.2",
    oid := [0x2a, 0x86, 0x48, 0xce, 0x3d, 0x04, 0x03, 0x02],
    supported := 1, pkalgo := PKALGO_ECC, algoString := "ecdsa",
    elemString := "-rs", ctrlString := [0x30, 0x02, 0x02],
    digestString := some "sha256" },
  { oidString := "1.2.840.10045.4.3.3",
    oid := [0x2a, 0x86, 0x48, 0xce, 0x3d, 0x04, 0x03, 0x03],
    supported := 1, pkalgo := PKALGO_ECC, algoString := "ecdsa",
    elemString := "-rs", ctrlString := [0x30, 0x02, 0x02],
    digestString := some "sha384" },
  { oidString := "1.2.840.10045.4.3.4",
    oid := [0x2a, 0x86, 0x48, 0xce, 0x3d, 0x04, 0x03, 0x04],
    supported := 1, pkalgo := PKALGO_ECC, algoString := "ecdsa",
    elemString := "-rs", ctrlString := [0x30, 0x02, 0x02],
    digestString := some "sha512" },
  { oidString := "1.2.840.113549.1.1.1",
    oid := [0x2a, 0x86, 0x48, 0x86, 0xf7, 0x0d, 0x01, 0x01, 0x01],
    supported := 1, pkalgo := PKALGO_RSA, algoString := "rsa",
    elemString := "s", ctrlString := [0x82] },
  { oidString := "1.3.14.3.2.26", oid := [0x2b, 0x0e, 0x03, 0x02, 0x1a],
    supported := 0, pkalgo := PKALGO_RSA, algoString := "sha-1",
    elemString := "", ctrlString := [],
    digestString := some "sha1" },
  { oidString := "1.3.36.3.3.1.2",
    oid := [0x2b, 0x24, 0x03, 0x03, 0x01, 0x02],
    supported := 1, pkalgo := PKALGO_RSA, algoString := "rsa",
    elemString := "s", ctrlString := [0x82],
    digestString := some "rmd160" },
  { oidString := "1.3.14.3.2.29", oid := [0x2b, 0x0e, 0x03, 0x02, 0x1d],
    supported := 1, pkalgo := PKALGO_RSA, algoString := "rsa",
    elemString := "s", ctrlString := [0x82],
    digestString := some "sha1" },
  { oidString := "1.2.840.113549.1.1.11",
    oid := [0x2a, 0x86, 0x48, 0x86, 0xf7, 0x0d, 0x01, 0x01, 0x0b],
    supported := 1, pkalgo := PKALGO_RSA, algoString := "rsa",
    elemString := "s", ctrlString := [0x82],
    digestString := some "sha256" },
  { oidString := "1.2.840.113549.1.1.12",
    oid := [0x2a, 0x86, 0x48, 0x86, 0xf7, 0x0d, 0x01, 0x01, 0x0c],
    supported := 1, pkalgo := PKALGO_RSA, algoString := "rsa",
    elemString := "s", ctrlString := [0x82],
    digestString := some "sha384" },
  { oidString := "1.2.840.113549.1.1.13",
    oid := [0x2a, 0x86, 0x48, 0x86, 0xf7, 0x0d, 0x01, 0x01, 0x0d],
    supported := 1, pkalgo := PKALGO_RSA, algoString := "rsa",
    elemString := "s", ctrlString := [0x82],
    digestString := some "sha512" },
  { oidString := "1.2.840.113549.1.1.10",
    oid := [0x2a, 0x86, 0x48, 0x86, 0xf7, 0x0d, 0x01, 0x01, 0x0a],
    supported := SUPPORTED_RSAPSS, pkalgo := PKALGO_RSA,
    algoString := "rsa", elemString := "s", ctrlString := [0x82] },
  { oidString := "1.3.36.3.4.3.2.2",
    oid := [0x2b, 0x24, 0x03, 0x04, 0x03, 0x02, 0x02],
    supported := 0, pkalgo := PKALGO_RSA, algoString := "rsa",
    elemString := "s", ctrlString := [0x82],
    digestString := some "rmd160" },
  { oidString := "1.3.101.112", oid := [0x2b, 0x65, 0x70],
    supported := 1, pkalgo := PKALGO_ED25519, algoString := "eddsa",
    elemString := "-rs", ctrlString := [0x80] },
  { oidString := "1.3.101.113", oid := [0x2b, 0x65, 0x71],
    supported := 1, pkalgo := PKALGO_ED448, algoString := "eddsa",
    elemString := "-rs", ctrlString := [0x80] }]

/-- The `enc_algo_table` of keyinfo.c. -/
def encAlgoTable : List AlgoEntry := [
  { oidString := "1.2.840.113549.1.1.1",
    oid := [0x2a, 0x86, 0x48, 0x86, 0xf7, 0x0d, 0x01, 0x01, 0x01],
    supported := 1, pkalgo := PKALGO_RSA, algoString := "rsa",
    elemString := "a", ctrlString := [0x82] },
  { oidString := "1.2.840.10045.2.1",
    oid := [0x2a, 0x86, 0x48, 0xce, 0x3d, 0x02, 0x01],
    supported := 1, pkalgo := PKALGO_ECC, algoString := "ecdh",
    elemString := "e", ctrlString := [0x80] }]

/-- Linear table scan by DER OID bytes (equal length and byte-equal),
returning the first match, as the C loops do. -/
def lookupByOid (table : List AlgoEntry) (oidBytes : List Nat) :
    Option AlgoEntry :=
  table.find? (fun e => e.oid == oidBytes)

end Ksba

namespace Ksba

/-! ## S-expression output (stringbuf helpers) -/

/-- ASCII bytes of a string. -/
def toBytes (s : String) : List Nat := s.toList.map Char.toNat

/-- Modelled from the spec: `put_stringbuf_sexp` emits a canonical
S-expression atom, its length in decimal ASCII, a colon, then the bytes
(spec §6: "lengths are decimal ASCII"). -/
def sexpAtom (s : String) : List Nat :=
  toBytes (toString s.length ++ ":" ++ s)

/-- Modelled from the spec: `put_stringbuf_mem_sexp` emits a raw byte
atom: decimal length, colon, the bytes themselves. -/
def sexpMem (bs : List Nat) : List Nat :=
  toBytes (toString bs.length ++ ":") ++ bs

/-- Modelled from the spec: `put_stringbuf_uint` emits an unsigned
integer as a decimal atom. -/
def sexpUint (n : Nat) : List Nat := sexpAtom (toString n)

/-! ## Buffer-based BER helpers used by the RSA-PSS parser.

The functions `_ksba_ber_parse_tl`, `parse_sequence`, `parse_context_tag`,
`parse_object_id_into_str`, `parse_optional_null` and `parse_integer` live
in `ber-help.c`, which is not under `src/`; they are modelled from the
spec's TLV description (§4.A) and the requirements visible at their call
sites in keyinfo.c (wrong-shape errors are `GPG_ERR_INV_OBJ`, a wrong
context tag number is `GPG_ERR_FALSE`, length octet `0xff` is
`GPG_ERR_BAD_BER`, and a premature end of buffer is reported as a
distinct low-level code, here `eof`). -/

/-- Tag continuation octets of a multi-octet tag (7 bits per octet,
high bit marks continuation); overflowing a 32-bit tag is rejected. -/
def bufTagLoop : List Nat → Nat → Nat → Except Err (Nat × List Nat × Nat)
  | [], _, _ => .error .eof
  | c :: rest, tag, nhdr =>
    let t := tag * 128 + c % 128
    if t ≥ W then .error .badBer
    else if c % 256 ≥ 128 then bufTagLoop rest t (nhdr + 1)
    else .ok (t, rest, nhdr + 1)

/-- Long-form length octets, big-endian into a 32-bit length. -/
def bufLenLoop : List Nat → Nat → Nat → Except Err (Nat × List Nat)
  | l, 0, len => .ok (len, l)
  | [], _ + 1, _ => .error .eof
  | c :: rest, count + 1, len =>
    bufLenLoop rest count ((len * 256 + c % 256) % W)

/-- Tag info record produced by the TL parsers (§3 of the spec): class,
tag number, constructed flag, value length, indefinite flag and header
byte count. -/
structure TagInfo where
  klass : Nat
  tag : Nat
  constructed : Bool
  length : Nat
  ndef : Bool
  nhdr : Nat
deriving DecidableEq, Repr

/-- Modelled from the spec: `_ksba_ber_parse_tl` (ber-help.c, not under
`src/`): parse one identifier octet and one length field from a byte
buffer, per §4.A.  A length octet `0x80` marks indefinite length, `0xff`
is `GPG_ERR_BAD_BER`, more than four length octets overflow the 32-bit
length and are rejected, and a missing octet is a premature end
(`eof`). -/
def bufParseTl (l : List Nat) : Except Err (TagInfo × List Nat) :=
  match l with
  | [] => .error .eof
  | c :: rest =>
    let klass := c / 64 % 4
    let constructed := c / 32 % 2 = 1
    let tag0 := c % 32
    match (if tag0 = 31 then bufTagLoop rest 0 1
           else .ok (tag0, rest, 1) : Except Err (Nat × List Nat × Nat)) with
    | .error e => .error e
    | .ok (tag, rest1, nhdr1) =>
      match rest1 with
      | [] => .error .eof
      | c2 :: rest2 =>
        if c2 < 0x80 then
          .ok (⟨klass, tag, constructed, c2, false, nhdr1 + 1⟩, rest2)
        else if c2 = 0x80 then
          .ok (⟨klass, tag, constructed, 0, true, nhdr1 + 1⟩, rest2)
        else if c2 = 0xff then .error .badBer
        else
          let count := c2 % 128
          if count > 4 then .error .badBer
          else
            match bufLenLoop rest2 count 0 with
            | .error e => .error e
            | .ok (len, rest3) =>
              .ok (⟨klass, tag, constructed, len, false, nhdr1 + 1 + count⟩,
                   rest3)

/-- Modelled from the spec: `parse_sequence` of ber-help.c: one TL that
must be a universal constructed SEQUENCE whose length fits the remaining
buffer. -/
def parseSequence (l : List Nat) : Except Err (TagInfo × List Nat) :=
  match bufParseTl l with
  | .error e => .error e
  | .ok (ti, l') =>
    if ¬(ti.klass = 0 ∧ ti.tag = 16 ∧ ti.constructed) then .error .invObj
    else if ti.length > l'.length then .error .badBer
    else .ok (ti, l')

/-- Modelled from the spec: `parse_context_tag` of ber-help.c: one TL
that must be a constructed context-class tag; a wrong tag number is
`GPG_ERR_FALSE` (used by keyinfo.c line 1699 to detect an absent
optional element). -/
def parseContextTag (l : List Nat) (tag : Nat) :
    Except Err (TagInfo × List Nat) :=
  match bufParseTl l with
  | .error e => .error e
  | .ok (ti, l') =>
    if ¬(ti.klass = 2 ∧ ti.constructed) then .error .invObj
    else if ti.tag ≠ tag then .error .falseErr
    else if ti.length > l'.length then .error .badBer
    else .ok (ti, l')

/-- Modelled from the spec: `parse_object_id_into_str` of ber-help.c: one
primitive universal OBJECT IDENTIFIER, converted to a dotted string; the
buffer advances past the value. -/
def parseObjectIdIntoStr (l : List Nat) : Except Err (String × List Nat) :=
  match bufParseTl l with
  | .error e => .error e
  | .ok (ti, l') =>
    if ¬(ti.klass = 0 ∧ ti.tag = 6 ∧ ¬ti.constructed) then .error .invObj
    else if ti.length > l'.length then .error .badBer
    else .ok (oidToStr (l'.take ti.length), l'.drop ti.length)

/-- Modelled from the spec: `parse_optional_null` of ber-help.c: consume
a zero-length primitive NULL if present, otherwise leave the buffer
unchanged. -/
def parseOptionalNull (l : List Nat) : Except Err (List Nat) :=
  match bufParseTl l with
  | .error e => .error e
  | .ok (ti, l') =>
    if ti.klass = 0 ∧ ti.tag = 5 ∧ ¬ti.constructed ∧ ti.length = 0 then
      .ok l'
    else .ok l

/-- Modelled from the spec: `parse_integer` of ber-help.c: one primitive
universal INTEGER with at least one content octet fitting the buffer. -/
def parseInteger (l : List Nat) : Except Err (TagInfo × List Nat) :=
  match bufParseTl l with
  | .error e => .error e
  | .ok (ti, l') =>
    if ¬(ti.klass = 0 ∧ ti.tag = 2 ∧ ¬ti.constructed) then .error .invObj
    else if ti.length = 0 then .error .invObj
    else if ti.length > l'.length then .error .badBer
    else .ok (ti, l')

/-! ## keyinfo.c: _ksba_keyinfo_get_pss_info (lines 1641-1731) -/

/-- The mandatory part of `_ksba_keyinfo_get_pss_info`: outer SEQUENCE,
`[0] { SEQUENCE { OID hash [NULL?] } }`, and
`[1] { SEQUENCE { OID mgf1, SEQUENCE { OID hash [NULL?] } } }`, with the
source's error mapping: failures at the `unknown_parms` call sites become
`GPG_ERR_INV_OBJ`, while the call sites that jump to `leave` return the
helper's own error. -/
def pssMandatory (der : List Nat) : Except Err (String × List Nat) :=
  match parseSequence der with
  | .error e => .error e
  | .ok (_, l1) =>
    match parseContextTag l1 0 with
    | .error _ => .error .invObj
    | .ok (_, l2) =>
      match parseSequence l2 with
      | .error _ => .error .invObj
      | .ok (_, l3) =>
        match parseObjectIdIntoStr l3 with
        | .error _ => .error .invObj
        | .ok (psshash, l4) =>
          match parseOptionalNull l4 with
          | .error _ => .error .invObj
          | .ok l5 =>
            match parseContextTag l5 1 with
            | .error _ => .error .invObj
            | .ok (_, l6) =>
              match parseSequence l6 with
              | .error e => .error e
              | .ok (_, l7) =>
                match parseObjectIdIntoStr l7 with
                | .error _ => .error .invObj
                | .ok (tmpoid, l8) =>
                  if tmpoid ≠ "1.2.840.113549.1.1.8" then .error .invObj
                  else
                    match parseSequence l8 with
                    | .error e => .error e
                    | .ok (_, l9) =>
                      match parseObjectIdIntoStr l9 with
                      | .error _ => .error .invObj
                      | .ok (tmpoid2, l10) =>
                        if tmpoid2 ≠ psshash then .error .invObj
                        else
                          match parseOptionalNull l10 with
                          | .error _ => .error .invObj
                          | .ok l11 => .ok (psshash, l11)

/-- Salt-length accumulation loop of `_ksba_keyinfo_get_pss_info`
(keyinfo.c lines 1709-1714), into a 32-bit `unsigned int`. -/
def saltFold (bs : List Nat) : Nat :=
  bs.foldl (fun a b => (a * 256 + b % 256) % W) 0

/-- The optional `[2] INTEGER saltLength` part of
`_ksba_keyinfo_get_pss_info`: an absent element (`GPG_ERR_INV_OBJ` or
`GPG_ERR_FALSE` from `parse_context_tag`) yields the default 20; any
other `parse_context_tag` error becomes `GPG_ERR_INV_OBJ`; a
`parse_integer` failure is returned as-is. -/
def pssSalt (l : List Nat) : Except Err Nat :=
  match parseContextTag l 2 with
  | .error e =>
    if e = .invObj ∨ e = .falseErr then .ok 20 else .error .invObj
  | .ok (_, l') =>
    match parseInteger l' with
    | .error e => .error e
    | .ok (ti, l'') => .ok (saltFold (l''.take ti.length))

/-- The function `_ksba_keyinfo_get_pss_info` of keyinfo.c: parse an
RSA-PSS parameter block, returning the hash OID and the salt length (on
error, nothing is stored at `*r_psshash`, which the `Except` encoding
makes structural). -/
def getPssInfo (der : List Nat) : Except Err (String × Nat) :=
  match pssMandatory der with
  | .error e => .error e
  | .ok (psshash, rest) =>
    match pssSalt rest with
    | .error e => .error e
    | .ok saltlen => .ok (psshash, saltlen)

end Ksba

namespace Ksba

/-! ## keyinfo.c: the elem/ctrl walking loop shared by
`_ksba_keyinfo_to_sexp` (lines 741-779 and 787-825) and
`cryptval_to_sexp` (lines 1825-1856). -/

/-- One elem/ctrl walk: `elems` are the single-character parameter names,
`ctrls` the parallel expected tag bytes.  A ctrl byte with bit 7 set on
the last element takes the whole remainder as a raw value; otherwise one
tag byte is read and must equal the ctrl byte, and a value is emitted
(and consumed) only when the tag is INTEGER (0x02) and the name is not
`-`.  Returns the collected output bytes and the final index. -/
def elemCtrlLoop (buf : List Nat) :
    Nat → List Char → List Nat → List Nat → Except Err (List Nat × Nat)
  | i, [], _, out => .ok (out, i)
  | i, e :: erest, ctrls, out =>
    let ctrl := ctrls.headD 0
    if ctrl ≥ 0x80 ∧ erest = [] then
      let len := buf.length - i
      if e ≠ '-' then
        elemCtrlLoop buf (i + len) erest ctrls.tail
          (out ++ toBytes "(" ++ sexpAtom (String.singleton e) ++
           sexpMem (sliceL buf i len) ++ toBytes ")")
      else elemCtrlLoop buf i erest ctrls.tail out
    else
      match buf.get? i with
      | none => .error .invKeyinfo
      | some c =>
        if c ≠ ctrl then .error .unexpectedTag
        else
          match tlvLength buf (i + 1) with
          | .error e' => .error e'
          | .ok (len, i') =>
            if c = 2 ∧ e ≠ '-' then
              elemCtrlLoop buf (i' + len) erest ctrls.tail
                (out ++ toBytes "(" ++ sexpAtom (String.singleton e) ++
                 sexpMem (sliceL buf i' len) ++ toBytes ")")
            else elemCtrlLoop buf i' erest ctrls.tail out

/-! ## keyinfo.c: _ksba_keyinfo_to_sexp (lines 645-834) -/

/-- The function `_ksba_keyinfo_to_sexp`: DER `SubjectPublicKeyInfo` to
the `(public-key (...))` S-expression (returned as its byte string). -/
def keyinfoToSexp (der : List Nat) : Except Err (List Nat) :=
  match der.get? 0 with
  | none => .error .invKeyinfo
  | some c =>
    if c ≠ 0x30 then .error .unexpectedTag
    else
      match tlvLength der 1 with
      | .error e => .error e
      | .ok (_, i) =>
        let sub := der.drop i
        match getAlgorithm 1 true sub with
        | .error e => .error e
        | .ok r =>
          match lookupByOid pkAlgoTable (sliceL sub r.pos r.len) with
          | none => .error .unknownAlgorithm
          | some entry =>
            if entry.supported = 0 then .error .unsupportedAlgorithm
            else
              let parmOid : Option String :=
                if r.parmPos ≠ 0 ∧ r.parmLen ≠ 0 ∧
                    r.parmType = TYPE_OBJECT_ID then
                  some (oidToStr (sliceL sub r.parmPos r.parmLen))
                else none
              let parmDer : Option (List Nat) :=
                if r.parmPos ≠ 0 ∧ r.parmLen ≠ 0 ∧
                    ¬(r.parmType = TYPE_OBJECT_ID) then
                  some (sliceL sub r.parmPos r.parmLen)
                else none
              match (if r.isBitstr then
                       match sub.get? r.nread with
                       | none => .error .invKeyinfo
                       | some _ => .ok (r.nread + 1)
                     else .ok r.nread : Except Err Nat) with
              | .error e => .error e
              | .ok j =>
                let out0 := toBytes "(10:public-key(" ++
                  sexpAtom entry.algoString
                let out1 :=
                  match parmOid with
                  | some po =>
                    if entry.pkalgo = PKALGO_ECC then
                      out0 ++ toBytes "(" ++ sexpAtom "curve" ++
                      sexpAtom po ++ toBytes ")"
                    else out0
                  | none => out0
                match (match parmDer, entry.parmElemString,
                         entry.parmCtrlString with
                       | some pd, some pe, some pc =>
                         elemCtrlLoop pd 0 pe.toList pc out1
                       | _, _, _ => .ok (out1, 0) :
                       Except Err (List Nat × Nat)) with
                | .error e => .error e
                | .ok (out2, _) =>
                  match elemCtrlLoop sub j entry.elemString.toList
                      entry.ctrlString out2 with
                  | .error e => .error e
                  | .ok (out3, _) => .ok (out3 ++ toBytes "))")

/-! ## keyinfo.c: cryptval_to_sexp (lines 1740-1897) -/

/-- The part of `cryptval_to_sexp` after the RSA-PSS parameter handling:
optional unused-bits octet, the elem/ctrl walk over the value, and the
assembly of the `(sig-val ...)` / `(enc-val ...)` output with the
optional `(hash ...)`, PSS and ECDH trailers. -/
def cryptvalTail (mode : Nat) (der : List Nat) (r : AlgoInfo)
    (entry : AlgoEntry) (pssOpt : Option (String × Nat))
    (keyencralgo keywrapalgo : String) (encrkey : List Nat) :
    Except Err (List Nat) :=
  match (if r.isBitstr then
           match der.get? r.nread with
           | none => .error .invKeyinfo
           | some _ => .ok (r.nread + 1)
         else .ok r.nread : Except Err Nat) with
  | .error e => .error e
  | .ok j =>
    let out0 := toBytes (if mode ≠ 0 then "(7:enc-val(" else "(7:sig-val(")
      ++ sexpAtom entry.algoString
    match elemCtrlLoop der j entry.elemString.toList entry.ctrlString
        out0 with
    | .error e => .error e
    | .ok (out1, _) =>
      let out2 := if mode = 2 then
          out1 ++ toBytes "(1:s" ++ sexpMem encrkey ++ toBytes ")"
        else out1
      let out3 := out2 ++ toBytes ")"
      let out4 :=
        match entry.digestString with
        | some d =>
          if mode = 0 then
            out3 ++ toBytes "(4:hash" ++ sexpAtom d ++ toBytes ")"
          else out3
        | none => out3
      let out5 :=
        match pssOpt with
        | some hs =>
          if mode = 0 then
            out4 ++ toBytes "(5:flags3:pss)" ++ toBytes "(9:hash-algo" ++
            sexpAtom hs.1 ++ toBytes ")" ++ toBytes "(11:salt-length" ++
            sexpUint hs.2 ++ toBytes ")"
          else out4
        | none => out4
      let out6 := if mode = 2 then
          out5 ++ toBytes "(9:encr-algo" ++ sexpAtom keyencralgo ++
          toBytes ")(9:wrap-algo" ++ sexpAtom keywrapalgo ++ toBytes ")"
        else out5
      .ok (out6 ++ toBytes ")")

/-- The function `cryptval_to_sexp` of keyinfo.c: `mode 0` is
`_ksba_sigval_to_sexp`, `mode 1` is `_ksba_encval_to_sexp`, `mode 2` the
ECDH variant.  For an rsaPSS entry with a SEQUENCE parameter the PSS
parameters are collected; a `GPG_ERR_INV_OBJ` result from the PSS parser
is cleared (keyinfo.c lines 1794-1795) and the conversion continues
without PSS information. -/
def cryptvalToSexp (mode : Nat) (der : List Nat)
    (keyencralgo keywrapalgo : String) (encrkey : List Nat) :
    Except Err (List Nat) :=
  let algoTable := if mode = 0 then sigAlgoTable else encAlgoTable
  match getAlgorithm 1 true der with
  | .error e => .error e
  | .ok r =>
    match lookupByOid algoTable (sliceL der r.pos r.len) with
    | none => .error .unknownAlgorithm
    | some entry =>
      if entry.supported = 0 then .error .unsupportedAlgorithm
      else
        match (if r.parmType = TYPE_SEQUENCE ∧
                  entry.supported = SUPPORTED_RSAPSS then
                 match getPssInfo (sliceL der r.parmPos r.parmLen) with
                 | .error e =>
                   if e = .invObj then .ok none else .error e
                 | .ok hs => .ok (some hs)
               else .ok none : Except Err (Option (String × Nat))) with
        | .error e => .error e
        | .ok pssOpt =>
          cryptvalTail mode der r entry pssOpt keyencralgo keywrapalgo
            encrkey

/-- The function `_ksba_sigval_to_sexp` (keyinfo.c lines 1921-1926). -/
def sigvalToSexp (der : List Nat) : Except Err (List Nat) :=
  cryptvalToSexp 0 der "" "" []

/-- The function `_ksba_encval_to_sexp` (keyinfo.c lines 1954-1959). -/
def encvalToSexp (der : List Nat) : Except Err (List Nat) :=
  cryptvalToSexp 1 der "" "" []

end Ksba

namespace Ksba

/-! ## Error classification of the buffer BER helpers -/

theorem bufTagLoop_error :
    ∀ {l : List Nat} {tag nhdr : Nat} {e : Err},
    bufTagLoop l tag nhdr = .error e → e = .eof ∨ e = .badBer := by
  intro l
  induction l with
  | nil =>
    intro tag nhdr e h
    unfold bufTagLoop at h
    simp only [Except.error.injEq] at h
    exact Or.inl h.symm
  | cons c rest ih =>
    intro tag nhdr e h
    unfold bufTagLoop at h
    dsimp only at h
    by_cases hw : tag * 128 + c % 128 ≥ W
    · rw [if_pos hw] at h
      simp only [Except.error.injEq] at h
      exact Or.inr h.symm
    · rw [if_neg hw] at h
      by_cases hc : c % 256 ≥ 128
      · rw [if_pos hc] at h
        exact ih h
      · rw [if_neg hc] at h
        exact absurd h (by simp)

theorem bufLenLoop_error :
    ∀ {count : Nat} {l : List Nat} {len : Nat} {e : Err},
    bufLenLoop l count len = .error e → e = .eof ∨ e = .badBer := by
  intro count
  induction count with
  | zero =>
    intro l len e h
    unfold bufLenLoop at h
    exact absurd h (by simp)
  | succ n ih =>
    intro l len e h
    cases l with
    | nil =>
      unfold bufLenLoop at h
      simp only [Except.error.injEq] at h
      exact Or.inl h.symm
    | cons c rest =>
      unfold bufLenLoop at h
      exact ih h

theorem bufParseTl_error {l : List Nat} {e : Err}
    (h : bufParseTl l = .error e) : e = .eof ∨ e = .badBer := by
  unfold bufParseTl at h
  cases l with
  | nil =>
    simp only [Except.error.injEq] at h
    exact Or.inl h.symm
  | cons c rest =>
    dsimp only at h
    cases htag : (if c % 32 = 31 then bufTagLoop rest 0 1
        else .ok (c % 32, rest, 1) : Except Err (Nat × List Nat × Nat)) with
    | error e' =>
      rw [htag] at h
      dsimp only at h
      simp only [Except.error.injEq] at h
      subst h
      split at htag
      · exact bufTagLoop_error htag
      · exact absurd htag (by simp)
    | ok p =>
      rw [htag] at h
      obtain ⟨tag, rest1, nhdr1⟩ := p
      dsimp only at h
      cases rest1 with
      | nil =>
        simp only [Except.error.injEq] at h
        exact Or.inl h.symm
      | cons c2 rest2 =>
        dsimp only at h
        split at h
        · exact absurd h (by simp)
        · split at h
          · exact absurd h (by simp)
          · split at h
            · simp only [Except.error.injEq] at h
              exact Or.inr h.symm
            · split at h
              · simp only [Except.error.injEq] at h
                exact Or.inr h.symm
              · cases hlen : bufLenLoop rest2 (c2 % 128) 0 with
                | error e2 =>
                  rw [hlen] at h
                  simp only [Except.error.injEq] at h
                  subst h
                  exact bufLenLoop_error hlen
                | ok q =>
                  rw [hlen] at h
                  exact absurd h (by simp)

theorem parseSequence_error {l : List Nat} {e : Err}
    (h : parseSequence l = .error e) :
    e = .invObj ∨ e = .badBer ∨ e = .eof := by
  unfold parseSequence at h
  cases hp : bufParseTl l with
  | error e' =>
    rw [hp] at h
    simp only [Except.error.injEq] at h
    subst h
    rcases bufParseTl_error hp with h1 | h1
    · exact Or.inr (Or.inr h1)
    · exact Or.inr (Or.inl h1)
  | ok p =>
    rw [hp] at h
    obtain ⟨ti, l'⟩ := p
    dsimp only at h
    split at h
    · simp only [Except.error.injEq] at h
      exact Or.inl h.symm
    · split at h
      · simp only [Except.error.injEq] at h
        exact Or.inr (Or.inl h.symm)
      · exact absurd h (by simp)

theorem parseInteger_error {l : List Nat} {e : Err}
    (h : parseInteger l = .error e) :
    e = .invObj ∨ e = .badBer ∨ e = .eof := by
  unfold parseInteger at h
  cases hp : bufParseTl l with
  | error e' =>
    rw [hp] at h
    simp only [Except.error.injEq] at h
    subst h
    rcases bufParseTl_error hp with h1 | h1
    · exact Or.inr (Or.inr h1)
    · exact Or.inr (Or.inl h1)
  | ok p =>
    rw [hp] at h
    obtain ⟨ti, l'⟩ := p
    dsimp only at h
    split at h
    · simp only [Except.error.injEq] at h
      exact Or.inl h.symm
    · split at h
      · simp only [Except.error.injEq] at h
        exact Or.inl h.symm
      · split at h
        · simp only [Except.error.injEq] at h
          exact Or.inr (Or.inl h.symm)
        · exact absurd h (by simp)

theorem pssMandatory_error {der : List Nat} {e : Err}
    (h : pssMandatory der = .error e) :
    e = .invObj ∨ e = .badBer ∨ e = .eof := by
  unfold pssMandatory at h
  cases h1 : parseSequence der with
  | error e1 =>
    rw [h1] at h
    simp only [Except.error.injEq] at h
    subst h
    exact parseSequence_error h1
  | ok p1 =>
    obtain ⟨t1, l1⟩ := p1
    rw [h1] at h
    dsimp only at h
    cases h2 : parseContextTag l1 0 with
    | error e2 =>
      rw [h2] at h
      simp only [Except.error.injEq] at h
      subst h
      exact Or.inl rfl
    | ok p2 =>
      obtain ⟨t2, l2⟩ := p2
      rw [h2] at h
      dsimp only at h
      cases h3 : parseSequence l2 with
      | error e3 =>
        rw [h3] at h
        simp only [Except.error.injEq] at h
        subst h
        exact Or.inl rfl
      | ok p3 =>
        obtain ⟨t3, l3⟩ := p3
        rw [h3] at h
        dsimp only at h
        cases h4 : parseObjectIdIntoStr l3 with
        | error e4 =>
          rw [h4] at h
          simp only [Except.error.injEq] at h
          subst h
          exact Or.inl rfl
        | ok p4 =>
          obtain ⟨psshash, l4⟩ := p4
          rw [h4] at h
          dsimp only at h
          cases h5 : parseOptionalNull l4 with
          | error e5 =>
            rw [h5] at h
            simp only [Except.error.injEq] at h
            subst h
            exact Or.inl rfl
          | ok l5 =>
            rw [h5] at h
            dsimp only at h
            cases h6 : parseContextTag l5 1 with
            | error e6 =>
              rw [h6] at h
              simp only [Except.error.injEq] at h
              subst h
              exact Or.inl rfl
            | ok p6 =>
              obtain ⟨t6, l6⟩ := p6
              rw [h6] at h
              dsimp only at h
              cases h7 : parseSequence l6 with
              | error e7 =>
                rw [h7] at h
                simp only [Except.error.injEq] at h
                subst h
                exact parseSequence_error h7
              | ok p7 =>
                obtain ⟨t7, l7⟩ := p7
                rw [h7] at h
                dsimp only at h
                cases h8 : parseObjectIdIntoStr l7 with
                | error e8 =>
                  rw [h8] at h
                  simp only [Except.error.injEq] at h
                  subst h
                  exact Or.inl rfl
                | ok p8 =>
                  obtain ⟨mgf, l8⟩ := p8
                  rw [h8] at h
                  dsimp only at h
                  by_cases hm : mgf ≠ "1.2.840.113549.1.1.8"
                  · rw [if_pos hm] at h
                    simp only [Except.error.injEq] at h
                    subst h
                    exact Or.inl rfl
                  · rw [if_neg hm] at h
                    cases h9 : parseSequence l8 with
                    | error e9 =>
                      rw [h9] at h
                      simp only [Except.error.injEq] at h
                      subst h
                      exact parseSequence_error h9
                    | ok p9 =>
                      obtain ⟨t9, l9⟩ := p9
                      rw [h9] at h
                      dsimp only at h
                      cases h10 : parseObjectIdIntoStr l9 with
                      | error e10 =>
                        rw [h10] at h
                        simp only [Except.error.injEq] at h
                        subst h
                        exact Or.inl rfl
                      | ok p10 =>
                        obtain ⟨inner, l10⟩ := p10
                        rw [h10] at h
                        dsimp only at h
                        by_cases hi : inner ≠ psshash
                        · rw [if_pos hi] at h
                          simp only [Except.error.injEq] at h
                          subst h
                          exact Or.inl rfl
                        · rw [if_neg hi] at h
                          cases h11 : parseOptionalNull l10 with
                          | error e11 =>
                            rw [h11] at h
                            simp only [Except.error.injEq] at h
                            subst h
                            exact Or.inl rfl
                          | ok l11 =>
                            rw [h11] at h
                            exact absurd h (by simp)

theorem pssSalt_error {l : List Nat} {e : Err}
    (h : pssSalt l = .error e) :
    e = .invObj ∨ e = .badBer ∨ e = .eof := by
  unfold pssSalt at h
  cases hc : parseContextTag l 2 with
  | error e1 =>
    rw [hc] at h
    dsimp only at h
    split at h
    · exact absurd h (by simp)
    · simp only [Except.error.injEq] at h
      subst h
      exact Or.inl rfl
  | ok p =>
    obtain ⟨ti, l'⟩ := p
    rw [hc] at h
    dsimp only at h
    cases hi : parseInteger l' with
    | error e2 =>
      rw [hi] at h
      simp only [Except.error.injEq] at h
      subst h
      exact parseInteger_error hi
    | ok q =>
      rw [hi] at h
      exact absurd h (by simp)

theorem getPssInfo_error {der : List Nat} {e : Err}
    (h : getPssInfo der = .error e) :
    e = .invObj ∨ e = .badBer ∨ e = .eof := by
  unfold getPssInfo at h
  cases hm : pssMandatory der with
  | error e' =>
    rw [hm] at h
    simp only [Except.error.injEq] at h
    subst h
    exact pssMandatory_error hm
  | ok p =>
    rw [hm] at h
    obtain ⟨hash, rest⟩ := p
    dsimp only at h
    cases hs : pssSalt rest with
    | error e2 =>
      rw [hs] at h
      simp only [Except.error.injEq] at h
      subst h
      exact pssSalt_error hs
    | ok s =>
      rw [hs] at h
      exact absurd h (by simp)

end Ksba

namespace Ksba

/-- A successful mandatory PSS parse decomposes into the helper chain,
with the MGF OID equal to 1.2.840.113549.1.1.8 and the inner hash OID
equal to the outer one. -/
theorem pssMandatory_ok {der : List Nat} {hsh : String} {rest : List Nat}
    (h : pssMandatory der = .ok (hsh, rest)) :
    ∃ t1 l1 t2 l2 t3 l3 l4 l5 t6 l6 t7 l7 mgf l8 t9 l9 inner l10,
      parseSequence der = .ok (t1, l1) ∧
      parseContextTag l1 0 = .ok (t2, l2) ∧
      parseSequence l2 = .ok (t3, l3) ∧
      parseObjectIdIntoStr l3 = .ok (hsh, l4) ∧
      parseOptionalNull l4 = .ok l5 ∧
      parseContextTag l5 1 = .ok (t6, l6) ∧
      parseSequence l6 = .ok (t7, l7) ∧
      parseObjectIdIntoStr l7 = .ok (mgf, l8) ∧
      mgf = "1.2.840.113549.1.1.8" ∧
      parseSequence l8 = .ok (t9, l9) ∧
      parseObjectIdIntoStr l9 = .ok (inner, l10) ∧
      inner = hsh ∧
      parseOptionalNull l10 = .ok rest := by
  unfold pssMandatory at h
  cases h1 : parseSequence der with
  | error e1 => rw [h1] at h; exact absurd h (by simp)
  | ok p1 =>
    obtain ⟨t1, l1⟩ := p1
    rw [h1] at h
    dsimp only at h
    cases h2 : parseContextTag l1 0 with
    | error e2 => rw [h2] at h; exact absurd h (by simp)
    | ok p2 =>
      obtain ⟨t2, l2⟩ := p2
      rw [h2] at h
      dsimp only at h
      cases h3 : parseSequence l2 with
      | error e3 => rw [h3] at h; exact absurd h (by simp)
      | ok p3 =>
        obtain ⟨t3, l3⟩ := p3
        rw [h3] at h
        dsimp only at h
        cases h4 : parseObjectIdIntoStr l3 with
        | error e4 => rw [h4] at h; exact absurd h (by simp)
        | ok p4 =>
          obtain ⟨psshash, l4⟩ := p4
          rw [h4] at h
          dsimp only at h
          cases h5 : parseOptionalNull l4 with
          | error e5 => rw [h5] at h; exact absurd h (by simp)
          | ok l5 =>
            rw [h5] at h
            dsimp only at h
            cases h6 : parseContextTag l5 1 with
            | error e6 => rw [h6] at h; exact absurd h (by simp)
            | ok p6 =>
              obtain ⟨t6, l6⟩ := p6
              rw [h6] at h
              dsimp only at h
              cases h7 : parseSequence l6 with
              | error e7 => rw [h7] at h; exact absurd h (by simp)
              | ok p7 =>
                obtain ⟨t7, l7⟩ := p7
                rw [h7] at h
                dsimp only at h
                cases h8 : parseObjectIdIntoStr l7 with
                | error e8 => rw [h8] at h; exact absurd h (by simp)
                | ok p8 =>
                  obtain ⟨mgf, l8⟩ := p8
                  rw [h8] at h
                  dsimp only at h
                  by_cases hm : mgf ≠ "1.2.840.113549.1.1.8"
                  · rw [if_pos hm] at h
                    exact absurd h (by simp)
                  · rw [if_neg hm] at h
                    cases h9 : parseSequence l8 with
                    | error e9 => rw [h9] at h; exact absurd h (by simp)
                    | ok p9 =>
                      obtain ⟨t9, l9⟩ := p9
                      rw [h9] at h
                      dsimp only at h
                      cases h10 : parseObjectIdIntoStr l9 with
                      | error e10 => rw [h10] at h; exact absurd h (by simp)
                      | ok p10 =>
                        obtain ⟨inner, l10⟩ := p10
                        rw [h10] at h
                        dsimp only at h
                        by_cases hi : inner ≠ psshash
                        · rw [if_pos hi] at h
                          exact absurd h (by simp)
                        · rw [if_neg hi] at h
                          cases h11 : parseOptionalNull l10 with
                          | error e11 =>
                            rw [h11] at h; exact absurd h (by simp)
                          | ok l11 =>
                            rw [h11] at h
                            simp only [Except.ok.injEq, Prod.mk.injEq] at h
                            obtain ⟨hh, hr⟩ := h
                            subst hh; subst hr
                            push_neg at hm hi
                            exact ⟨t1, l1, t2, l2, t3, l3, l4, l5, t6, l6,
                              t7, l7, mgf, l8, t9, l9, inner, l10,
                              rfl, h2, h3, h4, h5, h6, h7, h8, hm, h9,
                              h10, hi, h11⟩

end Ksba

namespace Ksba

/-- RSA-PSS parameters without a `[2]` saltLength element (a `[3]`
trailer element follows instead), hash sha-256. -/
def derPssNoSalt : List Nat := [0x30, 0x30,
  0xa0, 0x0d, 0x30, 0x0b, 0x06, 0x09, 0x60, 0x86, 0x48, 0x01, 0x65,
  0x03, 0x04, 0x02, 0x01,
  0xa1, 0x1a, 0x30, 0x18, 0x06, 0x09, 0x2a, 0x86, 0x48, 0x86, 0xf7,
  0x0d, 0x01, 0x01, 0x08,
  0x30, 0x0b, 0x06, 0x09, 0x60, 0x86, 0x48, 0x01, 0x65, 0x03, 0x04,
  0x02, 0x01,
  0xa3, 0x03, 0x02, 0x01, 0x01]

/-- C3: for every DER RSA-PSS parameter block given to
`_ksba_keyinfo_get_pss_info`: an absent `[2]` saltLength element yields
exactly 20; success forces the MGF OID to be 1.2.840.113549.1.1.8 with an
inner hash OID equal to the outer one; and any failure surfaces as
`GPG_ERR_INV_OBJ` except for the low-level TLV syntax errors of the
primitive parsers (with nothing stored at `r_psshash`, which the
`Except` encoding makes structural). -/
theorem C3_pss_info_shape :
    (∀ (der : List Nat) (hsh : String) (rest : List Nat),
      pssMandatory der = .ok (hsh, rest) →
      (parseContextTag rest 2 = .error .invObj ∨
       parseContextTag rest 2 = .error .falseErr) →
      getPssInfo der = .ok (hsh, 20)) ∧
    (∀ (der : List Nat) (hsh : String) (rest : List Nat),
      pssMandatory der = .ok (hsh, rest) →
      ∃ t1 l1 t2 l2 t3 l3 l4 l5 t6 l6 t7 l7 mgf l8 t9 l9 inner l10,
        parseSequence der = .ok (t1, l1) ∧
        parseContextTag l1 0 = .ok (t2, l2) ∧
        parseSequence l2 = .ok (t3, l3) ∧
        parseObjectIdIntoStr l3 = .ok (hsh, l4) ∧
        parseOptionalNull l4 = .ok l5 ∧
        parseContextTag l5 1 = .ok (t6, l6) ∧
        parseSequence l6 = .ok (t7, l7) ∧
        parseObjectIdIntoStr l7 = .ok (mgf, l8) ∧
        mgf = "1.2.840.113549.1.1.8" ∧
        parseSequence l8 = .ok (t9, l9) ∧
        parseObjectIdIntoStr l9 = .ok (inner, l10) ∧
        inner = hsh ∧
        parseOptionalNull l10 = .ok rest) ∧
    (∀ (der : List Nat) (e : Err), getPssInfo der = .error e →
      e = .invObj ∨ e = .badBer ∨ e = .eof) := by
  refine ⟨?_, fun der hsh rest h => pssMandatory_ok h,
    fun der e h => getPssInfo_error h⟩
  intro der hsh rest h habs
  unfold getPssInfo
  rw [h]
  dsimp only
  unfold pssSalt
  rcases habs with habs | habs
  · rw [habs]
    dsimp only
    rw [if_pos (Or.inl rfl)]
  · rw [habs]
    dsimp only
    rw [if_pos (Or.inr rfl)]

/-- Witness for C3: the default salt length at a concrete parameter
block without `[2]`, the success decomposition at the same block, and the
INV_OBJ error classification at a block that is not a SEQUENCE. -/
theorem C3_pss_info_shape_witness :
    getPssInfo derPssNoSalt = .ok ("2.16.840.1.101.3.4.2.1", 20) ∧
    (.invObj = Err.invObj ∨ .invObj = Err.badBer ∨ .invObj = Err.eof) :=
  ⟨C3_pss_info_shape.1 derPssNoSalt "2.16.840.1.101.3.4.2.1"
      [0xa3, 0x03, 0x02, 0x01, 0x01] (by decide) (Or.inr (by decide)),
   C3_pss_info_shape.2.2 [0x02, 0x01, 0x01] .invObj (by decide)⟩

/-- DER of an rsaPSS signature `AlgorithmIdentifier` whose parameter is a
SEQUENCE that does not resemble PSS parameters (`SEQUENCE { INTEGER 1 }`),
followed by a BIT STRING signature value. -/
def derPssBadParm : List Nat := [0x30, 0x10,
  0x06, 0x09, 0x2a, 0x86, 0x48, 0x86, 0xf7, 0x0d, 0x01, 0x01, 0x0a,
  0x30, 0x03, 0x02, 0x01, 0x01,
  0x03, 0x03, 0x00, 0xab, 0xcd]

/-- DER of an rsaPSS signature `AlgorithmIdentifier` whose PSS parameter
block fails with a low-level BER length error (an inner SEQUENCE longer
than the buffer), followed by a BIT STRING signature value. -/
def derPssTruncParm : List Nat := [0x30, 0x22,
  0x06, 0x09, 0x2a, 0x86, 0x48, 0x86, 0xf7, 0x0d, 0x01, 0x01, 0x0a,
  0x30, 0x15, 0xa0, 0x0d, 0x30, 0x0b, 0x06, 0x09, 0x60, 0x86, 0x48,
  0x01, 0x65, 0x03, 0x04, 0x02, 0x01,
  0xa1, 0x04, 0x30, 0x0a, 0x00, 0x00,
  0x03, 0x03, 0x00, 0x01, 0x02]

/-- C4 counterexample: for this rsaPSS signature value the PSS parameter
parser fails with `GPG_ERR_INV_OBJ`, yet `cryptval_to_sexp` succeeds:
the error is cleared at keyinfo.c lines 1794-1795, not propagated. -/
theorem C4_pss_inv_obj_not_propagated :
    getPssInfo (sliceL derPssBadParm 13 5) = .error .invObj ∧
    isOk (sigvalToSexp derPssBadParm) = true := by
  decide

/-- C4 (amended): `cryptval_to_sexp` propagates every error of the PSS
parameter parser unchanged except `GPG_ERR_INV_OBJ`, which it clears and
then continues the conversion without PSS information. -/
theorem C4_pss_error_propagation :
    ∀ (der : List Nat) (r : AlgoInfo) (entry : AlgoEntry) (e : Err),
      getAlgorithm 1 true der = .ok r →
      lookupByOid sigAlgoTable (sliceL der r.pos r.len) = some entry →
      entry.supported = SUPPORTED_RSAPSS →
      r.parmType = TYPE_SEQUENCE →
      getPssInfo (sliceL der r.parmPos r.parmLen) = .error e →
      (e ≠ .invObj → sigvalToSexp der = .error e) ∧
      (e = .invObj →
        sigvalToSexp der = cryptvalTail 0 der r entry none "" "" []) := by
  intro der r entry e hAlg hLook hSup hTy hPss
  unfold sigvalToSexp cryptvalToSexp
  rw [hAlg]
  dsimp only
  rw [if_pos rfl, hLook]
  dsimp only
  rw [if_neg (by rw [hSup]; norm_num [SUPPORTED_RSAPSS])]
  rw [if_pos ⟨hTy, hSup⟩, hPss]
  dsimp only
  constructor
  · intro hne
    rw [if_neg hne]
  · intro heq
    subst heq
    rw [if_pos rfl]

/-- Witness for C4 (amended): both directions at concrete inputs: the
INV_OBJ case continues without PSS info, the BAD_BER case propagates. -/
theorem C4_pss_error_propagation_witness :
    sigvalToSexp derPssBadParm =
      cryptvalTail 0 derPssBadParm ⟨20, 4, 9, true, 13, 5, 16⟩
        { oidString := "1.2.840.113549.1.1.10",
          oid := [0x2a, 0x86, 0x48, 0x86, 0xf7, 0x0d, 0x01, 0x01, 0x0a],
          supported := SUPPORTED_RSAPSS, pkalgo := PKALGO_RSA,
          algoString := "rsa", elemString := "s", ctrlString := [0x82] }
        none "" "" [] ∧
    sigvalToSexp derPssTruncParm = .error .badBer :=
  ⟨(C4_pss_error_propagation derPssBadParm ⟨20, 4, 9, true, 13, 5, 16⟩
      { oidString := "1.2.840.113549.1.1.10",
        oid := [0x2a, 0x86, 0x48, 0x86, 0xf7, 0x0d, 0x01, 0x01, 0x0a],
        supported := SUPPORTED_RSAPSS, pkalgo := PKALGO_RSA,
        algoString := "rsa", elemString := "s", ctrlString := [0x82] }
      .invObj (by decide) (by decide) (by decide) (by decide)
      (by decide)).2 rfl,
   (C4_pss_error_propagation derPssTruncParm ⟨38, 4, 9, true, 13, 23, 16⟩
      { oidString := "1.2.840.113549.1.1.10",
        oid := [0x2a, 0x86, 0x48, 0x86, 0xf7, 0x0d, 0x01, 0x01, 0x0a],
        supported := SUPPORTED_RSAPSS, pkalgo := PKALGO_RSA,
        algoString := "rsa", elemString := "s", ctrlString := [0x82] }
      .badBer (by decide) (by decide) (by decide) (by decide)
      (by decide)).1 (by decide)⟩

end Ksba

namespace Ksba

/-- C7: in the keyinfo TLV parse (the TLV_LENGTH step used by
`get_algorithm`, `_ksba_keyinfo_to_sexp` and `cryptval_to_sexp`), a
length octet 0xff yields `GPG_ERR_BAD_BER` and a length octet 0x80
(indefinite form, where DER is required) yields
`GPG_ERR_NOT_DER_ENCODED`.  The quantification over the arbitrary
remainder `rest` shows the error is raised without consuming any byte
beyond the offending length octet. -/
theorem C7_tlv_length_bad_octets :
    (∀ (rest : List Nat), tlvLength (0xff :: rest) 0 = .error .badBer) ∧
    (∀ (rest : List Nat),
      tlvLength (0x80 :: rest) 0 = .error .notDerEncoded) ∧
    (∀ (m : Nat) (w : Bool) (rest : List Nat),
      getAlgorithm m w (0x30 :: 0xff :: rest) = .error .badBer) ∧
    (∀ (m : Nat) (w : Bool) (rest : List Nat),
      getAlgorithm m w (0x30 :: 0x80 :: rest) = .error .notDerEncoded) ∧
    (∀ (rest : List Nat),
      keyinfoToSexp (0x30 :: 0xff :: rest) = .error .badBer) ∧
    (∀ (rest : List Nat),
      keyinfoToSexp (0x30 :: 0x80 :: rest) = .error .notDerEncoded) ∧
    (∀ (m : Nat) (rest : List Nat) (a b : String) (k : List Nat),
      cryptvalToSexp m (0x30 :: 0xff :: rest) a b k = .error .badBer) ∧
    (∀ (m : Nat) (rest : List Nat) (a b : String) (k : List Nat),
      cryptvalToSexp m (0x30 :: 0x80 :: rest) a b k =
        .error .notDerEncoded) := by
  refine ⟨fun rest => by simp [tlvLength],
    fun rest => by simp [tlvLength],
    fun m w rest => by simp [getAlgorithm, tlvLength],
    fun m w rest => by simp [getAlgorithm, tlvLength],
    fun rest => by simp [keyinfoToSexp, tlvLength],
    fun rest => by simp [keyinfoToSexp, tlvLength],
    fun m rest a b k => by
      simp [cryptvalToSexp, getAlgorithm, tlvLength],
    fun m rest a b k => by
      simp [cryptvalToSexp, getAlgorithm, tlvLength]⟩

end Ksba

namespace Ksba

/-! ## cms-parser.c: the reader and the stream TLV reader -/

/-- The byte-stream reader: the underlying bytes and the current read
position (`ksba_reader_tell` is `pos`; `unread` moves `pos` back). -/
structure Reader where
  data : List Nat
  pos : Nat
deriving DecidableEq, Repr

/-- Reader advanced by `n` consumed bytes. -/
def Reader.advance (rd : Reader) (n : Nat) : Reader := ⟨rd.data, rd.pos + n⟩

/-- The function `read_byte` of cms-parser.c: one byte or failure at end
of input. -/
def readByteS (rd : Reader) : Option (Nat × Reader) :=
  match rd.data.get? rd.pos with
  | some b => some (b, rd.advance 1)
  | none => none

/-- The function `read_buffer` of cms-parser.c: exactly `n` bytes or
failure. -/
def readBufferS (rd : Reader) (n : Nat) : Option (List Nat × Reader) :=
  if rd.pos + n ≤ rd.data.length then
    some (sliceL rd.data rd.pos n, rd.advance n)
  else none

/-- Tag-continuation loop of the stream TL reader: returns the tag and
the number of continuation octets consumed. -/
def streamTagLoop : List Nat → Nat → Nat → Except Err (Nat × Nat)
  | [], _, _ => .error .readError
  | c :: rest, tag, n =>
    let t := tag * 128 + c % 128
    if t ≥ W then .error .berError
    else if c % 256 ≥ 128 then streamTagLoop rest t (n + 1)
    else .ok (t, n + 1)

/-- Long-form length loop of the stream TL reader. -/
def streamLenLoop : List Nat → Nat → Nat → Except Err Nat
  | _, 0, len => .ok len
  | [], _ + 1, _ => .error .readError
  | c :: rest, count + 1, len =>
    streamLenLoop rest count ((len * 256 + c % 256) % W)

/-- Modelled from the spec: `_ksba_ber_read_tl` (ber-help.c, not under
`src/`), per §4.A: one identifier octet (with 7-bit continuation for tag
31, rejecting 32-bit overflow), then one length octet; `0x80` marks
indefinite length (`ndef`, length 0), `0xff` is a BER error, long form
reads `c & 0x7f` big-endian octets (more than four overflow the 32-bit
length).  Failures to read are reported as `readError` and malformed
headers as the old-style `KSBA_BER_Error`.  The raw header bytes
(`ti.buf`, `ti.nhdr`) support `unread` by moving the position back. -/
def readTl (rd : Reader) : Except Err (TagInfo × Reader) :=
  match rd.data.drop rd.pos with
  | [] => .error .readError
  | c :: rest =>
    let klass := c / 64 % 4
    let constructed := c / 32 % 2 = 1
    let tag0 := c % 32
    match (if tag0 = 31 then streamTagLoop rest 0 0
           else .ok (tag0, 0) : Except Err (Nat × Nat)) with
    | .error e => .error e
    | .ok (tag, tcons) =>
      match rest.drop tcons with
      | [] => .error .readError
      | c2 :: rest2 =>
        if c2 < 0x80 then
          .ok (⟨klass, tag, constructed, c2, false, 2 + tcons⟩,
               rd.advance (2 + tcons))
        else if c2 = 0x80 then
          .ok (⟨klass, tag, constructed, 0, true, 2 + tcons⟩,
               rd.advance (2 + tcons))
        else if c2 = 0xff then .error .berError
        else
          let count := c2 % 128
          if count > 4 then .error .berError
          else
            match streamLenLoop rest2 count 0 with
            | .error e => .error e
            | .ok len =>
              .ok (⟨klass, tag, constructed, len, false, 2 + tcons + count⟩,
                   rd.advance (2 + tcons + count))

/-! ## cms-parser.c: parse_content_info (lines 133-222) -/

/-- ASN.1 SET type constant. -/
def TYPE_SET : Nat := 17

/-- ASN.1 INTEGER type constant. -/
def TYPE_INTEGER : Nat := 2

/-- Result of `parse_content_info`: remaining content length, indefinite
flag, content-type OID, and whether a `[0]` content follows. -/
structure ContentInfoRes where
  len : Nat
  ndef : Bool
  oid : String
  hasContent : Bool
deriving DecidableEq, Repr

/-- The function `parse_content_info` of cms-parser.c: read the
`ContentInfo` SEQUENCE header, the contentType OID (whose value must fit
in the 100-byte `oidbuf`), and, when content bytes remain, the optional
`[0]` tag (a universal primitive tag 0 also counts as "no content").
All length bookkeeping is checked and `KSBA_BER_Error` on underflow. -/
def parseContentInfo (rd : Reader) :
    Except Err (ContentInfoRes × Reader) :=
  match readTl rd with
  | .error e => .error e
  | .ok (ti, rd1) =>
    if ¬(ti.klass = 0 ∧ ti.tag = TYPE_SEQUENCE ∧ ti.constructed) then
      .error .invalidCmsObject
    else
      let contentLen := ti.length
      let contentNdef := ti.ndef
      if ¬contentNdef ∧ contentLen < 3 then .error .objectTooShort
      else
        match readTl rd1 with
        | .error e => .error e
        | .ok (ti2, rd2) =>
          if ¬(ti2.klass = 0 ∧ ti2.tag = TYPE_OBJECT_ID ∧
               ¬ti2.constructed ∧ ti2.length ≠ 0) then
            .error .invalidCmsObject
          else
            match (if ¬contentNdef then
                     if contentLen < ti2.nhdr then .error .berError
                     else if contentLen - ti2.nhdr < ti2.length then
                       .error .berError
                     else .ok (contentLen - ti2.nhdr - ti2.length)
                   else .ok contentLen : Except Err Nat) with
            | .error e => .error e
            | .ok contentLen2 =>
              if ti2.length ≥ 100 then .error .objectTooLarge
              else
                match readBufferS rd2 ti2.length with
                | none => .error .readError
                | some (oidbuf, rd3) =>
                  let oid := oidToStr oidbuf
                  if ¬contentNdef ∧ contentLen2 = 0 then
                    .ok (⟨contentLen2, contentNdef, oid, false⟩, rd3)
                  else
                    match readTl rd3 with
                    | .error e => .error e
                    | .ok (ti3, rd4) =>
                      match (if ti3.klass = 2 ∧ ti3.tag = 0 ∧
                                ti3.constructed then .ok true
                             else if ti3.klass = 0 ∧ ti3.tag = 0 ∧
                                ¬ti3.constructed then .ok false
                             else .error .invalidCmsObject :
                             Except Err Bool) with
                      | .error e => .error e
                      | .ok hasContent =>
                        match (if ¬contentNdef then
                                 if contentLen2 < ti3.nhdr then
                                   .error .berError
                                 else if ¬ti3.ndef ∧
                                     contentLen2 - ti3.nhdr < ti3.length
                                   then .error .berError
                                 else .ok (contentLen2 - ti3.nhdr)
                               else .ok contentLen2 : Except Err Nat) with
                        | .error e => .error e
                        | .ok contentLen3 =>
                          .ok (⟨contentLen3, contentNdef, oid,
                                hasContent⟩, rd4)

/-- The function `_ksba_cms_parse_content_info` of cms-parser.c (lines
385-412): run `parse_content_info`, recode `KSBA_BER_Error`,
`KSBA_Invalid_CMS_Object` and `KSBA_Object_Too_Short` to
`KSBA_No_CMS_Object`, and require the content to be present. -/
def cmsParseContentInfo (rd : Reader) :
    Except Err (ContentInfoRes × Reader) :=
  match parseContentInfo rd with
  | .error e =>
    .error (if e = .berError ∨ e = .invalidCmsObject ∨
               e = .objectTooShort then .noCmsObject else e)
  | .ok (r, rd') =>
    if ¬r.hasContent then .error .noCmsObject
    else .ok (r, rd')

/-! ## cms-parser.c: parse_cms_version (lines 418-466) -/

/-- The function `parse_cms_version` of cms-parser.c: consume the opening
SEQUENCE of SignedData/EnvelopedData, then one INTEGER that must have
exactly one content octet whose value is 0..4; return the version, the
remaining sequence length and its indefinite flag. -/
def parseCmsVersion (rd : Reader) :
    Except Err (Nat × Nat × Bool × Reader) :=
  match readTl rd with
  | .error e => .error e
  | .ok (ti, rd1) =>
    if ¬(ti.klass = 0 ∧ ti.tag = TYPE_SEQUENCE ∧ ti.constructed) then
      .error .invalidCmsObject
    else
      let dataLen := ti.length
      let dataNdef := ti.ndef
      if ¬dataNdef ∧ dataLen < 3 then .error .objectTooShort
      else
        match readTl rd1 with
        | .error e => .error e
        | .ok (ti2, rd2) =>
          if ¬(ti2.klass = 0 ∧ ti2.tag = TYPE_INTEGER ∧
               ¬ti2.constructed ∧ ti2.length ≠ 0) then
            .error .invalidCmsObject
          else
            match (if ¬dataNdef then
                     if dataLen < ti2.nhdr then .error .berError
                     else if dataLen - ti2.nhdr < ti2.length then
                       .error .berError
                     else .ok (dataLen - ti2.nhdr - ti2.length)
                   else .ok dataLen : Except Err Nat) with
            | .error e => .error e
            | .ok dataLen2 =>
              if ti2.length ≠ 1 then .error .unsupportedCmsVersion
              else
                match readByteS rd2 with
                | none => .error .readError
                | some (c, rd3) =>
                  if ¬(c = 0 ∨ c = 1 ∨ c = 2 ∨ c = 3 ∨ c = 4) then
                    .error .unsupportedCmsVersion
                  else .ok (c, dataLen2, dataNdef, rd3)

end Ksba

namespace Ksba

/-- Ten bytes that are not a CMS object (they do not even start with a
SEQUENCE tag). -/
def blob10 : Reader := ⟨[1, 2, 3, 4, 5, 6, 7, 8, 9, 10], 0⟩

/-- A well-formed `ContentInfo` with a valid contentType OID and no `[0]`
content. -/
def contentInfoNoContent : Reader :=
  ⟨[0x30, 0x0b, 0x06, 0x09, 0x2a, 0x86, 0x48, 0x86, 0xf7, 0x0d, 0x01,
    0x07, 0x01], 0⟩

/-- C2: when the inner `parse_content_info` fails with `KSBA_BER_Error`,
`KSBA_Invalid_CMS_Object` or `KSBA_Object_Too_Short`, the outer
`_ksba_cms_parse_content_info` returns `KSBA_No_CMS_Object`; any other
error passes through unchanged; a random 10-byte blob yields
`KSBA_No_CMS_Object`, not `KSBA_BER_Error`. -/
theorem C2_no_cms_object_recoding :
    (∀ (rd : Reader) (e : Err), parseContentInfo rd = .error e →
      (e = .berError ∨ e = .invalidCmsObject ∨ e = .objectTooShort) →
      cmsParseContentInfo rd = .error .noCmsObject) ∧
    (∀ (rd : Reader) (e : Err), parseContentInfo rd = .error e →
      ¬(e = .berError ∨ e = .invalidCmsObject ∨ e = .objectTooShort) →
      cmsParseContentInfo rd = .error e) ∧
    (parseContentInfo blob10 = .error .invalidCmsObject ∧
     cmsParseContentInfo blob10 = .error .noCmsObject) := by
  refine ⟨?_, ?_, by decide, by decide⟩
  · intro rd e h hset
    unfold cmsParseContentInfo
    rw [h]
    dsimp only
    rw [if_pos hset]
  · intro rd e h hset
    unfold cmsParseContentInfo
    rw [h]
    dsimp only
    rw [if_neg hset]

/-- Witness for C2: the recoding applied at the concrete blob, and the
pass-through applied at an empty stream (whose read failure is not in
the recoded set). -/
theorem C2_no_cms_object_recoding_witness :
    cmsParseContentInfo blob10 = .error .noCmsObject ∧
    cmsParseContentInfo ⟨[], 0⟩ = .error .readError :=
  ⟨C2_no_cms_object_recoding.1 blob10 .invalidCmsObject (by decide)
      (Or.inr (Or.inl rfl)),
   C2_no_cms_object_recoding.2.1 ⟨[], 0⟩ .readError (by decide)
      (by decide)⟩

/-- C10: a syntactically well-formed `ContentInfo` whose optional `[0]`
content is absent makes the outer `_ksba_cms_parse_content_info` return
`KSBA_No_CMS_Object` (content is mandatory at the outermost level). -/
theorem C10_missing_content_is_no_cms_object :
    (∀ (rd : Reader) (r : ContentInfoRes) (rd' : Reader),
      parseContentInfo rd = .ok (r, rd') → r.hasContent = false →
      cmsParseContentInfo rd = .error .noCmsObject) ∧
    (parseContentInfo contentInfoNoContent =
       .ok (⟨0, false, "1.2.840.113549.1.7.1", false⟩,
            ⟨contentInfoNoContent.data, 13⟩) ∧
     cmsParseContentInfo contentInfoNoContent = .error .noCmsObject) := by
  refine ⟨?_, by decide, by decide⟩
  intro rd r rd' h hc
  unfold cmsParseContentInfo
  rw [h]
  dsimp only
  rw [if_pos (by simp [hc])]

/-- Witness for C10: the general statement applied to the concrete
content-less `ContentInfo`. -/
theorem C10_missing_content_is_no_cms_object_witness :
    cmsParseContentInfo contentInfoNoContent = .error .noCmsObject :=
  C10_missing_content_is_no_cms_object.1 contentInfoNoContent
    ⟨0, false, "1.2.840.113549.1.7.1", false⟩
    ⟨contentInfoNoContent.data, 13⟩ (by decide) rfl

end Ksba

namespace Ksba

/-- C6 counterexample: a SignedData opening whose version INTEGER is the
two-octet BER encoding `02 02 00 01` of the value 1 (which is in
{0,1,2,3,4}) is rejected with `KSBA_Unsupported_CMS_Version`, so
`parse_cms_version` does not succeed on every INTEGER whose value is in
{0,1,2,3,4}. -/
theorem C6_two_octet_version_rejected :
    intValue [0x00, 0x01] = 1 ∧
    parseCmsVersion ⟨[0x30, 0x06, 0x02, 0x02, 0x00, 0x01], 0⟩ =
      .error .unsupportedCmsVersion := by
  decide

/-- C6 (amended): `parse_cms_version` consumes the opening SEQUENCE and
one INTEGER, and succeeds exactly when the INTEGER has exactly one
content octet whose value is in {0,1,2,3,4}: a one-octet INTEGER is
accepted iff its octet is in the set, an INTEGER with two or more
content octets is rejected with `KSBA_Unsupported_CMS_Version` whatever
its value, and a zero-length INTEGER is `KSBA_Invalid_CMS_Object`
(stated over definite short-form encodings). -/
theorem C6_version_requires_single_octet :
    (∀ (b : Nat) (rest : List Nat), rest.length ≤ 124 →
      parseCmsVersion ⟨0x30 :: (3 + rest.length) :: 0x02 :: 0x01 :: b ::
        rest, 0⟩ =
        (if b = 0 ∨ b = 1 ∨ b = 2 ∨ b = 3 ∨ b = 4 then
          .ok (b, rest.length, false,
               ⟨0x30 :: (3 + rest.length) :: 0x02 :: 0x01 :: b :: rest,
                5⟩)
        else .error .unsupportedCmsVersion)) ∧
    (∀ (b1 b2 : Nat) (t rest : List Nat),
      2 + t.length ≤ 127 → 4 + t.length + rest.length ≤ 127 →
      parseCmsVersion ⟨0x30 :: (4 + t.length + rest.length) :: 0x02 ::
        (2 + t.length) :: b1 :: b2 :: (t ++ rest), 0⟩ =
        .error .unsupportedCmsVersion) ∧
    (∀ (rest : List Nat), 1 ≤ rest.length → rest.length ≤ 125 →
      parseCmsVersion ⟨0x30 :: (2 + rest.length) :: 0x02 :: 0x00 ::
        rest, 0⟩ = .error .invalidCmsObject) := by
  refine ⟨?_, ?_, ?_⟩
  · intro b rest hlen
    have h1 : (3 + rest.length) < 128 := by omega
    have h2 : ¬(3 + rest.length < 3) := by omega
    have h3 : ¬(3 + rest.length < 2) := by omega
    have h4 : ¬(3 + rest.length - 2 < 1) := by omega
    have h5 : 3 + rest.length - 2 - 1 = rest.length := by omega
    by_cases hb : b = 0 ∨ b = 1 ∨ b = 2 ∨ b = 3 ∨ b = 4
    · rw [if_pos hb]
      simp [parseCmsVersion, readTl, readByteS, Reader.advance,
        TYPE_SEQUENCE, TYPE_INTEGER, h1, h2, h3, h4, h5, hb]
    · rw [if_neg hb]
      simp [parseCmsVersion, readTl, readByteS, Reader.advance,
        TYPE_SEQUENCE, TYPE_INTEGER, h1, h2, h3, h4, h5, hb]
  · intro b1 b2 t rest hn hlen
    have h1 : (4 + t.length + rest.length) < 128 := by omega
    have h2 : ¬(4 + t.length + rest.length < 3) := by omega
    have h3 : ¬(4 + t.length + rest.length < 2) := by omega
    have h4 : 2 + t.length < 128 := by omega
    have h5 : ¬(4 + t.length + rest.length - 2 < 2 + t.length) := by
      omega
    have h6 : ¬(2 + t.length = 1) := by omega
    have h7 : ¬(2 + t.length = 0) := by omega
    simp [parseCmsVersion, readTl, Reader.advance, TYPE_SEQUENCE,
      TYPE_INTEGER, h1, h2, h3, h4, h5, h6, h7]
  · intro rest hr hlen
    have h1 : (2 + rest.length) < 128 := by omega
    have h2 : ¬(2 + rest.length < 3) := by omega
    simp [parseCmsVersion, readTl, Reader.advance, TYPE_SEQUENCE,
      TYPE_INTEGER, h1, h2]

/-- Witness for C6 (amended): version 1 accepted, version 5 rejected, a
two-octet INTEGER rejected, a zero-length INTEGER invalid. -/
theorem C6_version_requires_single_octet_witness :
    parseCmsVersion ⟨[0x30, 0x03, 0x02, 0x01, 0x01], 0⟩ =
      .ok (1, 0, false, ⟨[0x30, 0x03, 0x02, 0x01, 0x01], 5⟩) ∧
    parseCmsVersion ⟨[0x30, 0x03, 0x02, 0x01, 0x05], 0⟩ =
      .error .unsupportedCmsVersion ∧
    parseCmsVersion ⟨[0x30, 0x04, 0x02, 0x02, 0x00, 0x01], 0⟩ =
      .error .unsupportedCmsVersion ∧
    parseCmsVersion ⟨[0x30, 0x03, 0x02, 0x00, 0xaa], 0⟩ =
      .error .invalidCmsObject := by
  refine ⟨?_, ?_, ?_, ?_⟩
  · have := C6_version_requires_single_octet.1 1 [] (by decide)
    simpa using this
  · have := C6_version_requires_single_octet.1 5 [] (by decide)
    simpa using this
  · have := C6_version_requires_single_octet.2.1 0 1 [] [] (by decide)
      (by decide)
    simpa using this
  · have := C6_version_requires_single_octet.2.2 [0xaa] (by decide)
      (by decide)
    simpa using this

end Ksba

namespace Ksba

/-! ## cms-parser.c: _ksba_cms_parse_signed_data_part_1 (lines 487-593) -/

/-- The fields of the CMS handle that part 1 of the SignedData parser
touches. -/
structure Cms where
  reader : Reader
  cmsVersion : Nat := 0
  digestAlgos : List String := []
  innerContOid : Option String := none
  detachedData : Bool := false
deriving DecidableEq, Repr

/-- The digestAlgorithms loop of `_ksba_cms_parse_signed_data_part_1`
(cms-parser.c lines 540-564): repeatedly parse an `AlgorithmIdentifier`
from the in-memory SET and prepend each OID to the accumulator (the
`digest_algos` list).  The C loop has no fuel; `fuel` only models its
non-termination (`loopLimit`) and is chosen large enough to be
unreachable, since each successful parse consumes at least one byte; the C
`assert (nread <= algo_set_len)` becomes `assertFailed`. -/
def algoSetLoop : Nat → List Nat → List String → Except Err (List String)
  | _, [], acc => .ok acc
  | 0, _ :: _, _ => .error .loopLimit
  | fuel + 1, c :: rem', acc =>
    match parseAlgorithmIdentifier (c :: rem') with
    | .error e => .error e
    | .ok (nread, oid) =>
      if nread > (c :: rem').length then .error .assertFailed
      else algoSetLoop fuel ((c :: rem').drop nread) (oid :: acc)

/-- The OIDs of the SET in their encounter order (the reference list the
loop prepends from). -/
def algoSetOids : Nat → List Nat → Except Err (List String)
  | _, [] => .ok []
  | 0, _ :: _ => .error .loopLimit
  | fuel + 1, c :: rem' =>
    match parseAlgorithmIdentifier (c :: rem') with
    | .error e => .error e
    | .ok (nread, oid) =>
      if nread > (c :: rem').length then .error .assertFailed
      else
        match algoSetOids fuel ((c :: rem').drop nread) with
        | .error e => .error e
        | .ok l => .ok (oid :: l)

/-- The prepend loop computes the reverse of the encounter-order list,
in front of the previous accumulator. -/
theorem algoSetLoop_ok :
    ∀ {fuel : Nat} {rem : List Nat} {acc res : List String},
    algoSetLoop fuel rem acc = .ok res →
    ∃ l, algoSetOids fuel rem = .ok l ∧ res = l.reverse ++ acc := by
  intro fuel
  induction fuel with
  | zero =>
    intro rem acc res h
    cases rem with
    | nil =>
      simp only [algoSetLoop, Except.ok.injEq] at h
      exact ⟨[], rfl, by simp [h]⟩
    | cons c rem' => exact absurd h (by simp [algoSetLoop])
  | succ n ih =>
    intro rem acc res h
    cases rem with
    | nil =>
      simp only [algoSetLoop, Except.ok.injEq] at h
      exact ⟨[], rfl, by simp [h]⟩
    | cons c rem' =>
      unfold algoSetLoop at h
      cases hp : parseAlgorithmIdentifier (c :: rem') with
      | error e => rw [hp] at h; exact absurd h (by simp)
      | ok p =>
        obtain ⟨nread, oid⟩ := p
        rw [hp] at h
        dsimp only at h
        split at h
        · exact absurd h (by simp)
        · obtain ⟨l, hl, hres⟩ := ih h
          refine ⟨oid :: l, ?_, by simp [hres]⟩
          unfold algoSetOids
          rw [hp]
          dsimp only
          rw [if_neg (by assumption), hl]

/-- The function `_ksba_cms_parse_signed_data_part_1` of cms-parser.c:
version, `SET OF AlgorithmIdentifier` (definite length only, read whole
into memory, OIDs prepended to `digest_algos`), then the
`encapContentInfo` via `parse_content_info`, with all length
bookkeeping. -/
def parseSignedDataPart1 (cms : Cms) : Except Err Cms :=
  match parseCmsVersion cms.reader with
  | .error e => .error e
  | .ok (ver, sdLen, sdNdef, rd1) =>
    match readTl rd1 with
    | .error e => .error e
    | .ok (ti, rd2) =>
      if ¬(ti.klass = 0 ∧ ti.tag = TYPE_SET ∧ ti.constructed) then
        .error .invalidCmsObject
      else
        match (if ¬sdNdef then
                 if sdLen < ti.nhdr then .error .berError
                 else if ¬ti.ndef ∧ sdLen - ti.nhdr < ti.length then
                   .error .berError
                 else .ok (sdLen - ti.nhdr - ti.length)
               else .ok sdLen : Except Err Nat) with
        | .error e => .error e
        | .ok sdLen2 =>
          if ti.ndef then .error .unsupportedEncoding
          else
            match readBufferS rd2 ti.length with
            | none => .error .readError
            | some (buffer, rd3) =>
              match algoSetLoop (ti.length + 1) buffer
                  cms.digestAlgos with
              | .error e => .error e
              | .ok algos =>
                match parseContentInfo rd3 with
                | .error e => .error e
                | .ok (ci, rd4) =>
                  let cms' : Cms :=
                    { reader := rd4, cmsVersion := ver,
                      digestAlgos := algos,
                      innerContOid := some ci.oid,
                      detachedData := ¬ci.hasContent }
                  if ¬sdNdef then
                    if sdLen2 < rd4.pos - rd3.pos then .error .berError
                    else if ¬ci.ndef ∧
                        sdLen2 - (rd4.pos - rd3.pos) < ci.len then
                      .error .berError
                    else .ok cms'
                  else .ok cms'

end Ksba

namespace Ksba

/-- A SignedData prefix: version 1, one sha-1 `AlgorithmIdentifier` in
the digestAlgorithms SET, and an `encapContentInfo` for
`1.2.840.113549.1.7.1` with attached content. -/
def sdPart1Data : List Nat := [0x30, 0x1f, 0x02, 0x01, 0x01,
  0x31, 0x09, 0x30, 0x07, 0x06, 0x05, 0x2b, 0x0e, 0x03, 0x02, 0x1a,
  0x30, 0x0f, 0x06, 0x09, 0x2a, 0x86, 0x48, 0x86, 0xf7, 0x0d, 0x01,
  0x07, 0x01, 0xa0, 0x02, 0x04, 0x00]

/-- A SignedData prefix whose digestAlgorithms SET announces indefinite
length. -/
def sdPart1NdefSet : List Nat :=
  [0x30, 0x80, 0x02, 0x01, 0x01, 0x31, 0x80]

/-- C8: in SignedData part 1, an indefinite-length digestAlgorithms SET
yields `KSBA_Unsupported_Encoding`; for a definite-length SET the whole
SET is read into memory, `parse_algorithm_identifier` is applied
repeatedly until the bytes are exhausted, and each OID is prepended to
`digest_algos`, so after a successful part 1 the list holds the parsed
OIDs in reverse encounter order, in front of the previous contents. -/
theorem C8_digest_algos_reversed :
    (∀ (cms : Cms) (ver sdLen : Nat) (sdNdef : Bool) (rd1 : Reader)
       (ti : TagInfo) (rd2 : Reader),
      parseCmsVersion cms.reader = .ok (ver, sdLen, sdNdef, rd1) →
      readTl rd1 = .ok (ti, rd2) →
      ti.klass = 0 → ti.tag = TYPE_SET → ti.constructed = true →
      ti.ndef = true →
      (sdNdef = true ∨ ti.nhdr ≤ sdLen) →
      parseSignedDataPart1 cms = .error .unsupportedEncoding) ∧
    (∀ (cms cms' : Cms), parseSignedDataPart1 cms = .ok cms' →
      ∃ ver sdLen sdNdef rd1 ti rd2 buffer rd3 l,
        parseCmsVersion cms.reader = .ok (ver, sdLen, sdNdef, rd1) ∧
        readTl rd1 = .ok (ti, rd2) ∧
        ti.ndef = false ∧
        readBufferS rd2 ti.length = some (buffer, rd3) ∧
        buffer = sliceL rd2.data rd2.pos ti.length ∧
        algoSetOids (ti.length + 1) buffer = .ok l ∧
        cms'.digestAlgos = l.reverse ++ cms.digestAlgos) := by
  constructor
  · intro cms ver sdLen sdNdef rd1 ti rd2 hv ht hk htag hcon hndef hbk
    unfold parseSignedDataPart1
    rw [hv]
    dsimp only
    rw [ht]
    dsimp only
    rw [if_neg (by simp [hk, htag, hcon])]
    cases sdNdef with
    | true =>
      rw [if_neg (by simp)]
      dsimp only
      rw [if_pos hndef]
    | false =>
      have hle : ti.nhdr ≤ sdLen := by
        rcases hbk with h' | h'
        · exact absurd h' (by simp)
        · exact h'
      rw [if_pos (by simp)]
      rw [if_neg (by omega : ¬sdLen < ti.nhdr)]
      rw [if_neg (by simp [hndef])]
      dsimp only
      rw [if_pos hndef]
  · intro cms cms' h
    unfold parseSignedDataPart1 at h
    cases hv : parseCmsVersion cms.reader with
    | error e => rw [hv] at h; exact absurd h (by simp)
    | ok p =>
      obtain ⟨ver, sdLen, sdNdef, rd1⟩ := p
      rw [hv] at h
      dsimp only at h
      cases ht : readTl rd1 with
      | error e => rw [ht] at h; exact absurd h (by simp)
      | ok q =>
        obtain ⟨ti, rd2⟩ := q
        rw [ht] at h
        dsimp only at h
        split at h
        · exact absurd h (by simp)
        · cases hbk : (if ¬sdNdef then
                 if sdLen < ti.nhdr then (.error .berError : Except Err Nat)
                 else if ¬ti.ndef ∧ sdLen - ti.nhdr < ti.length then
                   .error .berError
                 else .ok (sdLen - ti.nhdr - ti.length)
               else .ok sdLen) with
          | error e => rw [hbk] at h; exact absurd h (by simp)
          | ok sdLen2 =>
            rw [hbk] at h
            dsimp only at h
            by_cases hnd : ti.ndef
            · rw [if_pos hnd] at h
              exact absurd h (by simp)
            · rw [if_neg hnd] at h
              cases hbuf : readBufferS rd2 ti.length with
              | none => rw [hbuf] at h; exact absurd h (by simp)
              | some pb =>
                obtain ⟨buffer, rd3⟩ := pb
                rw [hbuf] at h
                dsimp only at h
                cases hloop : algoSetLoop (ti.length + 1) buffer
                    cms.digestAlgos with
                | error e => rw [hloop] at h; exact absurd h (by simp)
                | ok algos =>
                  rw [hloop] at h
                  dsimp only at h
                  cases hci : parseContentInfo rd3 with
                  | error e => rw [hci] at h; exact absurd h (by simp)
                  | ok pc =>
                    obtain ⟨ci, rd4⟩ := pc
                    rw [hci] at h
                    dsimp only at h
                    obtain ⟨l, hl, hres⟩ := algoSetLoop_ok hloop
                    have hbuf2 : buffer = sliceL rd2.data rd2.pos
                        ti.length := by
                      unfold readBufferS at hbuf
                      split at hbuf
                      · simp only [Option.some.injEq, Prod.mk.injEq]
                          at hbuf
                        exact hbuf.1.symm
                      · exact absurd hbuf (by simp)
                    have hok : cms'.digestAlgos = algos := by
                      cases hsn : sdNdef with
                      | true =>
                        rw [hsn] at h
                        rw [if_neg (by simp)] at h
                        simp only [Except.ok.injEq] at h
                        rw [← h]
                      | false =>
                        rw [hsn] at h
                        rw [if_pos (by simp)] at h
                        split at h
                        · exact absurd h (by simp)
                        · split at h
                          · exact absurd h (by simp)
                          · simp only [Except.ok.injEq] at h
                            rw [← h]
                    exact ⟨ver, sdLen, sdNdef, rd1, ti, rd2, buffer, rd3,
                      l, rfl, ht, by simpa using hnd, hbuf, hbuf2, hl,
                      by rw [hok, hres]⟩

/-- Witness for C8: the indefinite SET rejected, and the reversed
prepend order observed on a concrete SignedData prefix. -/
theorem C8_digest_algos_reversed_witness :
    parseSignedDataPart1 ⟨⟨sdPart1NdefSet, 0⟩, 0, [], none, false⟩ =
      .error .unsupportedEncoding ∧
    (∃ ver sdLen sdNdef rd1 ti rd2 buffer rd3 l,
      parseCmsVersion (Reader.mk sdPart1Data 0) =
        .ok (ver, sdLen, sdNdef, rd1) ∧
      readTl rd1 = .ok (ti, rd2) ∧
      ti.ndef = false ∧
      readBufferS rd2 ti.length = some (buffer, rd3) ∧
      buffer = sliceL rd2.data rd2.pos ti.length ∧
      algoSetOids (ti.length + 1) buffer = .ok l ∧
      (Cms.mk ⟨sdPart1Data, 31⟩ 1 ["1.3.14.3.2.26"]
        (some "1.2.840.113549.1.7.1") false).digestAlgos =
        l.reverse ++ ([] : List String)) :=
  ⟨C8_digest_algos_reversed.1 ⟨⟨sdPart1NdefSet, 0⟩, 0, [], none, false⟩
      1 0 true ⟨sdPart1NdefSet, 5⟩ ⟨0, 17, true, 0, true, 2⟩
      ⟨sdPart1NdefSet, 7⟩ (by decide) (by decide) (by decide) (by decide)
      (by decide) (by decide) (Or.inl rfl),
   C8_digest_algos_reversed.2 ⟨⟨sdPart1Data, 0⟩, 0, [], none, false⟩
      ⟨⟨sdPart1Data, 31⟩, 1, ["1.3.14.3.2.26"],
        some "1.2.840.113549.1.7.1", false⟩ (by decide)⟩

end Ksba

namespace Ksba

/-! ## cert.c: ksba_cert_get_validity (lines 356-390) -/

/-- ASN.1 UTCTime type constant from asn1-func.h. -/
def TYPE_UTC_TIME : Nat := 23

/-- ASN.1 GeneralizedTime type constant from asn1-func.h. -/
def TYPE_GENERALIZED_TIME : Nat := 24

/-- Modelled from the spec: a `DecodedNode` of the external generic
decoder (§3): type tag, offset in the image (-1 when absent), header
and value lengths, and the children (the `down`/`right` chain as a
list). -/
inductive NodeTree where
  | node (name : String) (ty : Nat) (off : Int) (nhdr : Nat) (len : Nat)
      (children : List NodeTree)

/-- Name of a node. -/
def NodeTree.name : NodeTree → String
  | .node n _ _ _ _ _ => n

/-- Type tag of a node. -/
def NodeTree.ty : NodeTree → Nat
  | .node _ t _ _ _ _ => t

/-- Image offset of a node (-1 when the node has no image range). -/
def NodeTree.off : NodeTree → Int
  | .node _ _ o _ _ _ => o

/-- Header length of a node. -/
def NodeTree.nhdr : NodeTree → Nat
  | .node _ _ _ h _ _ => h

/-- Value length of a node. -/
def NodeTree.len : NodeTree → Nat
  | .node _ _ _ _ l _ => l

/-- Children of a node. -/
def NodeTree.children : NodeTree → List NodeTree
  | .node _ _ _ _ _ c => c

/-- First child with the given name (the `down`/`right` scan). -/
def childNamed (cs : List NodeTree) (p : String) : Option NodeTree :=
  cs.find? (fun c => c.name == p)

/-- Modelled from the spec: `_ksba_asn_find_node` (§6: node navigator,
`find_node(root, "A.B.C") → node | none`): the root must carry the first
path component; each further component selects the first child with
that name. -/
def findNode (n : NodeTree) (path : List String) : Option NodeTree :=
  match path with
  | [] => none
  | p :: rest =>
    if n.name = p then
      rest.foldl (fun acc q => acc.bind (fun m => childNamed m.children q))
        (some n)
    else none

/-- The certificate handle fields `ksba_cert_get_validity` reads. -/
structure Cert where
  initialized : Bool
  root : NodeTree
  image : List Nat

/-- The image bytes of a time node: `cert->image + n->off + n->nhdr`,
length `n->len`. -/
def timeBytes (cert : Cert) (n : NodeTree) : List Nat :=
  sliceL cert.image (n.off + n.nhdr).toNat n.len

/-- The `Time` choice child the scan at cert.c lines 374-379 selects:
the first child that is a UTCTime or GeneralizedTime with a valid
offset. -/
def validityTimeChild (cert : Cert) (what : Nat) : Option NodeTree :=
  (findNode cert.root ["Certificate", "tbsCertificate", "validity",
     if what = 0 then "notBefore" else "notAfter"]).bind
    (fun n => n.children.find? (fun c =>
       (c.ty == TYPE_UTC_TIME || c.ty == TYPE_GENERALIZED_TIME) &&
       c.off != -1))

/-- The function `ksba_cert_get_validity` of cert.c, parameterized by
the external time converter `f` (`_ksba_asntime_to_epoch`, not under
`src/`; modelled from the spec as returning the nonnegative epoch
seconds of a valid time and 0 when the bytes do not parse, which is the
convention the caller's `if (!t)` test at cert.c line 387 relies on). -/
def ksbaCertGetValidity (f : List Nat → Int) (cert : Cert) (what : Nat) :
    Int :=
  if what > 1 then -1
  else if ¬cert.initialized then -1
  else
    match findNode cert.root ["Certificate", "tbsCertificate", "validity",
        if what = 0 then "notBefore" else "notAfter"] with
    | none => 0
    | some n =>
      match n.children.find? (fun c =>
          (c.ty == TYPE_UTC_TIME || c.ty == TYPE_GENERALIZED_TIME) &&
          c.off != -1) with
      | none => 0
      | some n2 =>
        if n2.off = -1 then -1
        else
          let t := f (timeBytes cert n2)
          if t = 0 then -1 else t

end Ksba

namespace Ksba

/-- Characterization of `ksba_cert_get_validity` on an initialized
handle: the result is the time child's converted value, with 0 for an
absent value and -1 when the converter reports failure (result 0). -/
theorem getValidity_eq (f : List Nat → Int) (cert : Cert) (what : Nat)
    (hw : ¬what > 1) (hinit : cert.initialized = true) :
    ksbaCertGetValidity f cert what =
      (match validityTimeChild cert what with
       | none => 0
       | some n2 => if f (timeBytes cert n2) = 0 then -1
                    else f (timeBytes cert n2)) := by
  unfold ksbaCertGetValidity validityTimeChild
  rw [if_neg hw, if_neg (by simp [hinit])]
  cases hfn : findNode cert.root ["Certificate", "tbsCertificate",
      "validity", if what = 0 then "notBefore" else "notAfter"] with
  | none => rfl
  | some n =>
    dsimp only [Option.bind]
    cases hfc : n.children.find? (fun c =>
        (c.ty == TYPE_UTC_TIME || c.ty == TYPE_GENERALIZED_TIME) &&
        c.off != -1) with
    | none => rfl
    | some n2 =>
      have hpred := List.find?_some hfc
      have hoff : ¬n2.off = -1 := by
        simp only [Bool.and_eq_true, bne_iff_ne, ne_eq] at hpred
        exact hpred.2
      dsimp only
      rw [if_neg hoff]

/-- C9: for an initialized certificate handle and `what` in {0, 1},
`ksba_cert_get_validity` accepts either a UTCTime or a GeneralizedTime
child of the `Time` choice node, returns 0 when the value is absent,
passes a successfully parsed (nonzero) time through unchanged, and
returns -1 exactly when the time converter reports a parse failure
(result 0; the converter is nonnegative-valued under the spec's
modelling of `_ksba_asntime_to_epoch`). -/
theorem C9_get_validity_dispatch :
    ∀ (f : List Nat → Int) (cert : Cert) (what : Nat),
      cert.initialized = true → what ≤ 1 → (∀ bs, 0 ≤ f bs) →
      ((validityTimeChild cert what = none →
         ksbaCertGetValidity f cert what = 0) ∧
       (∀ n2, validityTimeChild cert what = some n2 →
         ksbaCertGetValidity f cert what =
           (if f (timeBytes cert n2) = 0 then -1
            else f (timeBytes cert n2))) ∧
       (ksbaCertGetValidity f cert what = -1 ↔
         ∃ n2, validityTimeChild cert what = some n2 ∧
           f (timeBytes cert n2) = 0)) := by
  intro f cert what hinit hwhat hf
  have hb := getValidity_eq f cert what (by omega) hinit
  refine ⟨?_, ?_, ?_⟩
  · intro h0
    rw [hb, h0]
  · intro n2 hn2
    rw [hb, hn2]
  · rw [hb]
    cases hvc : validityTimeChild cert what with
    | none =>
      dsimp only
      constructor
      · intro h0
        exact absurd h0 (by norm_num)
      · rintro ⟨n2, hn2, -⟩
        exact absurd hn2 (by simp)
    | some n2 =>
      dsimp only
      by_cases hz : f (timeBytes cert n2) = 0
      · rw [if_pos hz]
        exact ⟨fun _ => ⟨n2, rfl, hz⟩, fun _ => rfl⟩
      · rw [if_neg hz]
        constructor
        · intro hres
          have := hf (timeBytes cert n2)
          omega
        · rintro ⟨m, hm, hzm⟩
          simp only [Option.some.injEq] at hm
          subst hm
          exact absurd hzm hz
  
/-- A concrete certificate handle with UTCTime and GeneralizedTime
children under the `Time` choice nodes. -/
def sampleCert : Cert :=
  { initialized := true,
    root := .node "Certificate" 0 0 0 0 [
      .node "tbsCertificate" 0 0 0 0 [
        .node "validity" 0 0 0 0 [
          .node "notBefore" 0 0 0 0 [
            .node "" TYPE_UTC_TIME 2 2 13 []],
          .node "notAfter" 0 0 0 0 [
            .node "" TYPE_GENERALIZED_TIME 17 2 15 []]]]],
    image := List.replicate 40 0x30 }

/-- Witness for C9: the dispatch applied to a concrete handle whose
notBefore holds a UTCTime child, with a converter returning 42. -/
theorem C9_get_validity_dispatch_witness :
    ksbaCertGetValidity (fun _ => 42) sampleCert 0 =
      (if (fun (_ : List Nat) => (42 : Int))
            (timeBytes sampleCert (.node "" TYPE_UTC_TIME 2 2 13 [])) = 0
        then -1
        else (fun (_ : List Nat) => (42 : Int))
            (timeBytes sampleCert (.node "" TYPE_UTC_TIME 2 2 13 []))) :=
  ((C9_get_validity_dispatch (fun _ => 42) sampleCert 0 rfl
      (by omega) (fun bs => by norm_num)).2.1)
    (.node "" TYPE_UTC_TIME 2 2 13 []) rfl

end Ksba
